import Mathlib

/-!
Shallow embedding of the ingestion & analytical query core of the
helios-rag-crewai repository (app/backend/utils/common.py, app/backend/ingest.py,
app/backend/queries.py), together with theorems settling the frozen claims
about the natural-language specification.

Conventions:
* SQL `NULL` is `Option.none`; nullable columns have `Option` types.
* Python floats are modelled as `ℚ` (the claims only involve exact
  arithmetic: differences, division, sign comparison).
* SQL `=` on nullable operands is `sqlEq` (`NULL = x` is never true).
* Python exceptions are modelled with `Except`; the functions the source
  makes total by `try/except` are total Lean functions returning `Option`.
* String primitives (strip/lower/upper/slice) are implemented over the
  character list of the string, so that concrete instances evaluate.
-/

namespace Helios

/-- Python `str.strip()`: drop whitespace from both ends. -/
def pyStrip (s : String) : String :=
  ⟨((s.data.dropWhile Char.isWhitespace).reverse.dropWhile Char.isWhitespace).reverse⟩

/-- Python `str.lower()` (ASCII range, which covers every keyword the code
compares against). -/
def pyLower (s : String) : String := ⟨s.data.map Char.toLower⟩

/-- Python `str.upper()` (ASCII range). -/
def pyUpper (s : String) : String := ⟨s.data.map Char.toUpper⟩

/-- Python slice `s[:n]` (by characters). -/
def pySlice (s : String) (n : ℕ) : String := ⟨s.data.take n⟩

/-- A JSON-ish value as it arrives from the feed: Python `None`, `bool`,
`int`, `float` (modelled as `ℚ`) or `str`. -/
inductive Value where
  | vnull : Value
  | vbool : Bool → Value
  | vint : ℤ → Value
  | vfloat : ℚ → Value
  | vstr : String → Value
deriving DecidableEq, Repr

/-- Value of one decimal digit character (only applied under an
`isDigit` guard). -/
def digitVal (c : Char) : ℕ :=
  if c = '0' then 0 else if c = '1' then 1 else if c = '2' then 2
  else if c = '3' then 3 else if c = '4' then 4 else if c = '5' then 5
  else if c = '6' then 6 else if c = '7' then 7 else if c = '8' then 8
  else 9

/-- Digit-string value, e.g. `digitsVal ['4','2'] = 42`. -/
def digitsVal (l : List Char) : ℕ :=
  l.foldl (fun n c => 10 * n + digitVal c) 0

/-- Sign/body split shared by the numeric-literal scanners: an optional
leading `+`/`-` followed by the rest of the (already whitespace-stripped)
character list. -/
def signSplit : List Char → ℤ × List Char
  | '-' :: rest => (-1, rest)
  | '+' :: rest => (1, rest)
  | l => (1, l)

/-- CPython `int(str)` on plain decimal integer literals: optional sign,
then one or more digits.  (Underscore separators are omitted from the
model; they do not occur in the feeds and do not bear on any claim.) -/
def parseIntLit (s : String) : Option ℤ :=
  let (sign, digits) := signSplit (pyStrip s).data
  if digits ≠ [] ∧ digits.all Char.isDigit then some (sign * (digitsVal digits : ℤ))
  else none

/-- Split a character list at the occurrences of `'.'`. -/
def splitDot : List Char → List (List Char)
  | [] => [[]]
  | c :: rest =>
      let r := splitDot rest
      if c = '.' then [] :: r
      else
        match r with
        | [] => [[c]]
        | h :: t => (c :: h) :: t

/-- CPython `float(str)` on finite plain decimal literals: optional sign,
digits with at most one decimal point and at least one digit overall
(`"1."`, `".5"` are accepted, `"."` is not — as in CPython).  Exponent,
infinity, NaN and underscore forms are omitted from the model; they do not
occur in the feeds and do not bear on any claim. -/
def parseFloatLit (s : String) : Option ℚ :=
  let (sign, body) := signSplit (pyStrip s).data
  match splitDot body with
  | [ip] =>
      if ip ≠ [] ∧ ip.all Char.isDigit then some ((sign : ℚ) * (digitsVal ip : ℚ))
      else none
  | [ip, fp] =>
      if (ip ++ fp) ≠ [] ∧ ip.all Char.isDigit ∧ fp.all Char.isDigit then
        some ((sign : ℚ) * ((digitsVal ip : ℚ) + (digitsVal fp : ℚ) / (10 : ℚ) ^ fp.length))
      else none
  | _ => none

/-- CPython builtin `float(value)`: `none` exactly where CPython raises
(`TypeError` on `None`, `ValueError` on a non-numeric string). -/
def pyFloat : Value → Option ℚ
  | .vnull => none
  | .vbool b => some (if b then 1 else 0)
  | .vint n => some (n : ℚ)
  | .vfloat q => some q
  | .vstr s => parseFloatLit s

/-- Truncation toward zero, as CPython `int(float)`. -/
def pyTrunc (q : ℚ) : ℤ := if 0 ≤ q then ⌊q⌋ else ⌈q⌉

/-- CPython builtin `int(value)`: `none` exactly where CPython raises. -/
def pyInt : Value → Option ℤ
  | .vnull => none
  | .vbool b => some (if b then 1 else 0)
  | .vint n => some n
  | .vfloat q => some (pyTrunc q)
  | .vstr s => parseIntLit s

/-- CPython `str(value)`.  For floats the model keeps the one property the
code depends on — CPython's float repr always contains a decimal point or
exponent, hence is never one of `to_bool`'s keywords — without reproducing
the shortest-roundtrip algorithm. -/
def pyStr : Value → String
  | .vnull => "None"
  | .vbool true => "True"
  | .vbool false => "False"
  | .vint n => toString n
  | .vfloat q => if q.den = 1 then toString q.num ++ ".0" else toString q
  | .vstr s => s

/-- `app/backend/utils/common.py::to_bool`.  Converts to a 0/1 integer,
`none` where the source returns Python `None`. -/
def to_bool (value : Value) : Option ℤ :=
  match value with
  | .vnull => none
  | .vbool b => some (if b then 1 else 0)
  | v =>
      let s := pyLower (pyStrip (pyStr v))
      if s = "true" ∨ s = "1" ∨ s = "yes" then some 1
      else if s = "false" ∨ s = "0" ∨ s = "no" then some 0
      else none

/-- `app/backend/utils/common.py::safe_float`.  The source's
`try: float(value) except: None` is the totalisation of `pyFloat`. -/
def safe_float (value : Value) : Option ℚ :=
  if value = .vnull ∨ value = .vstr "null" ∨ value = .vstr "" then none
  else pyFloat value

/-- `app/backend/utils/common.py::safe_int`. -/
def safe_int (value : Value) : Option ℤ :=
  if value = .vnull ∨ value = .vstr "null" ∨ value = .vstr "" then none
  else pyInt value

/-- SQL `=` on nullable operands: true only when both sides are non-NULL
and equal (`NULL = x` is NULL, i.e. not satisfied). -/
def sqlEq {α : Type} [DecidableEq α] : Option α → Option α → Bool
  | some x, some y => decide (x = y)
  | _, _ => false

/-- Python `a or b` on optional strings: the left side if it is truthy
(present and non-empty), otherwise the right side. -/
def pyOr (a b : Option String) : Option String :=
  match a with
  | some s => if s = "" then b else some s
  | none => b

/-- Python truthiness of an optional string. -/
def pyTruthy : Option String → Bool
  | none => false
  | some s => s ≠ ""

example : safe_float (.vstr " 35 ") = some 35 := by
  norm_num +decide [safe_float, pyFloat, parseFloatLit, pyStrip, signSplit, splitDot,
    digitsVal, digitVal]
example : safe_float (.vstr "null") = none := by decide
example : safe_float (.vstr "abc") = none := by decide
example : safe_float (.vstr "3.5") = some (7/2) := by
  norm_num +decide [safe_float, pyFloat, parseFloatLit, pyStrip, signSplit, splitDot,
    digitsVal, digitVal]
example : safe_int (.vstr "3.5") = none := by decide
example : safe_int (.vstr "-12") = some (-12) := by decide
example : to_bool (.vstr "Yes ") = some 1 := by decide
example : to_bool (.vfloat 0) = none := by decide
example : to_bool .vnull = none := by decide
example : sqlEq (α := ℤ) none none = false := by decide
example : pyOr (some "") (some "GLB") = some "GLB" := by decide

/-! ## Data model (schema relations of §3, columns as inserted by ingest.py) -/

/-- `commodities` table row. `name` is nullable because the feed record's
`commodity` field is fetched with `.get` and inserted as-is. -/
structure Commodity where
  id : ℤ
  name : Option String
  slug : Option String
deriving DecidableEq, Repr

/-- `countries` table row. -/
structure Country where
  id : ℤ
  code : Option String
  name : Option String
deriving DecidableEq, Repr

/-- `climate_risk_by_country` fact row, columns as in the INSERT of
`ingest.py` (feed `climate_risk_by_country`). -/
structure BycRow where
  redis_key : Option String
  commodity_id : ℤ
  country_id : ℤ
  year : Option ℤ
  hist_avg_wapr : Option ℚ
  this_year_avg_wapr : Option ℚ
  current_season : Option ℤ
  most_recent_season : Option ℤ
  upcoming_season : Option ℤ
  just_ended_season : Option ℤ
deriving DecidableEq, Repr

/-- `risk_compared_hist_box` fact row (feed `risk_compared_hist_box`). -/
structure BoxRow where
  redis_key : Option String
  commodity_id : ℤ
  country_id : ℤ
  hist_risk_score : Option ℚ
  this_year_risk_score : Option ℚ
  avg_risk_score_diff : Option ℚ
  upcoming_year_risk_score : Option ℚ
  risk_level : Option String
  current_season : Option ℤ
  just_ended_season : Option ℤ
  upcoming_season : Option ℤ
deriving DecidableEq, Repr

/-- `risk_current_vs_hist` fact row (feed `risk_current_vs_hist`). -/
structure CvhRow where
  redis_key : Option String
  commodity_id : ℤ
  country_id : ℤ
  hist_wapr : Option ℚ
  this_year_wapr : Option ℚ
  std_upper : Option ℚ
  std_lower : Option ℚ
  date_on : Option String
  season_status : Option String
deriving DecidableEq, Repr

/-- `risk_global_avg_max` fact row (feed `risk_global_avg_max`). -/
structure GamRow where
  redis_key : Option String
  commodity_id : ℤ
  country_id : ℤ
  hist_max_wapr : Option ℚ
  hist_avg_wapr : Option ℚ
  year : Option ℤ
  current_season : Option ℤ
  past_season : Option ℤ
  upcoming_season : Option ℤ
deriving DecidableEq, Repr

/-- `most_similar_year` fact row (feed `most_similar_year`). -/
structure MsyRow where
  redis_key : Option String
  commodity_id : ℤ
  country_id : ℤ
  most_similar_growing_season_year : Option ℤ
  hist_avg_wapr_of_most_similar_year : Option ℚ
  risk_category : Option String
  star_rating : Option ℤ
  total_production : Option ℚ
  total_area_harvested : Option ℚ
  current_season : Option ℤ
  upcoming_season : Option ℤ
  just_ended_season : Option ℤ
  this_growing_season_year : Option ℤ
  total_yield : Option ℚ
  total_yield_unit : Option String
  yield_rating : Option String
  total_production_unit : Option String
  total_area_harvested_unit : Option String
deriving DecidableEq, Repr

/-- The relational store: the relations of §3 that the claims touch
(`raw_ingest` is append-only and not needed by any claim's statement). -/
structure DB where
  commodities : List Commodity
  countries : List Country
  byc : List BycRow
  box : List BoxRow
  cvh : List CvhRow
  gam : List GamRow
  msy : List MsyRow
deriving Repr

/-! ## Natural-key upsert (INSERT … ON CONFLICT(key) DO UPDATE SET …)

Modelled from the spec: the unique-index declarations live in
`app/backend/database/schema.sql`, which is not part of the provided
sources; per the spec's invariant (b) — "the natural key of each fact
relation uniquely identifies a row" — conflict detection is modelled as
plain equality of the natural-key tuple.  The per-relation merge
functions below transcribe the `DO UPDATE SET` column lists of
`ingest.py` verbatim. -/

/-- Generic natural-key upsert over a list-modelled table: replace the
first row whose key equals the incoming row's key using `merge old new`,
or append the new row when no key matches. -/
def upsert {ρ κ : Type} [DecidableEq κ] (key : ρ → κ) (merge : ρ → ρ → ρ) (row : ρ) :
    List ρ → List ρ
  | [] => [row]
  | r :: rs => if key r = key row then merge r row :: rs else r :: upsert key merge row rs

/-- Natural key of `climate_risk_by_country`: `(commodity_id, country_id, year)`. -/
def keyByc (r : BycRow) : ℤ × ℤ × Option ℤ := (r.commodity_id, r.country_id, r.year)

/-- `DO UPDATE SET` list of the `climate_risk_by_country` upsert. -/
def mergeByc (old new : BycRow) : BycRow :=
  { old with
    redis_key := new.redis_key
    hist_avg_wapr := new.hist_avg_wapr
    this_year_avg_wapr := new.this_year_avg_wapr
    current_season := new.current_season
    most_recent_season := new.most_recent_season
    upcoming_season := new.upcoming_season
    just_ended_season := new.just_ended_season }

/-- Natural key of `risk_compared_hist_box`: `(commodity_id, country_id)`. -/
def keyBox (r : BoxRow) : ℤ × ℤ := (r.commodity_id, r.country_id)

/-- `DO UPDATE SET` list of the `risk_compared_hist_box` upsert. -/
def mergeBox (old new : BoxRow) : BoxRow :=
  { old with
    redis_key := new.redis_key
    hist_risk_score := new.hist_risk_score
    this_year_risk_score := new.this_year_risk_score
    avg_risk_score_diff := new.avg_risk_score_diff
    upcoming_year_risk_score := new.upcoming_year_risk_score
    risk_level := new.risk_level
    current_season := new.current_season
    just_ended_season := new.just_ended_season
    upcoming_season := new.upcoming_season }

/-- Natural key of `risk_current_vs_hist`: `(commodity_id, country_id, date_on)`. -/
def keyCvh (r : CvhRow) : ℤ × ℤ × Option String := (r.commodity_id, r.country_id, r.date_on)

/-- `DO UPDATE SET` list of the `risk_current_vs_hist` upsert. -/
def mergeCvh (old new : CvhRow) : CvhRow :=
  { old with
    redis_key := new.redis_key
    hist_wapr := new.hist_wapr
    this_year_wapr := new.this_year_wapr
    std_upper := new.std_upper
    std_lower := new.std_lower
    season_status := new.season_status }

/-- Natural key of `risk_global_avg_max`: `(commodity_id, country_id, year)`. -/
def keyGam (r : GamRow) : ℤ × ℤ × Option ℤ := (r.commodity_id, r.country_id, r.year)

/-- `DO UPDATE SET` list of the `risk_global_avg_max` upsert. -/
def mergeGam (old new : GamRow) : GamRow :=
  { old with
    redis_key := new.redis_key
    hist_max_wapr := new.hist_max_wapr
    hist_avg_wapr := new.hist_avg_wapr
    current_season := new.current_season
    past_season := new.past_season
    upcoming_season := new.upcoming_season }

/-- Natural key of `most_similar_year`:
`(commodity_id, country_id, this_growing_season_year)`. -/
def keyMsy (r : MsyRow) : ℤ × ℤ × Option ℤ :=
  (r.commodity_id, r.country_id, r.this_growing_season_year)

/-- `DO UPDATE SET` list of the `most_similar_year` upsert. -/
def mergeMsy (old new : MsyRow) : MsyRow :=
  { old with
    redis_key := new.redis_key
    most_similar_growing_season_year := new.most_similar_growing_season_year
    hist_avg_wapr_of_most_similar_year := new.hist_avg_wapr_of_most_similar_year
    risk_category := new.risk_category
    star_rating := new.star_rating
    total_production := new.total_production
    total_area_harvested := new.total_area_harvested
    current_season := new.current_season
    upcoming_season := new.upcoming_season
    just_ended_season := new.just_ended_season
    total_yield := new.total_yield
    total_yield_unit := new.total_yield_unit
    yield_rating := new.yield_rating
    total_production_unit := new.total_production_unit
    total_area_harvested_unit := new.total_area_harvested_unit }

/-- The five relation-specific upserts. -/
def upsertByc (row : BycRow) (t : List BycRow) : List BycRow := upsert keyByc mergeByc row t

def upsertBox (row : BoxRow) (t : List BoxRow) : List BoxRow := upsert keyBox mergeBox row t

def upsertCvh (row : CvhRow) (t : List CvhRow) : List CvhRow := upsert keyCvh mergeCvh row t

def upsertGam (row : GamRow) (t : List GamRow) : List GamRow := upsert keyGam mergeGam row t

def upsertMsy (row : MsyRow) (t : List MsyRow) : List MsyRow := upsert keyMsy mergeMsy row t

/-- Table invariant (spec §3 invariant (b)): the natural keys of the
stored rows are pairwise distinct. -/
def KeysNodup {ρ κ : Type} [DecidableEq κ] (key : ρ → κ) (t : List ρ) : Prop :=
  (t.map key).Nodup

/-! ### Generic upsert lemmas -/

theorem upsert_nil {ρ κ : Type} [DecidableEq κ] (key : ρ → κ) (merge : ρ → ρ → ρ) (row : ρ) :
    upsert key merge row [] = [row] := rfl

theorem upsert_cons {ρ κ : Type} [DecidableEq κ] (key : ρ → κ) (merge : ρ → ρ → ρ)
    (row r : ρ) (rs : List ρ) :
    upsert key merge row (r :: rs) =
      if key r = key row then merge r row :: rs else r :: upsert key merge row rs := rfl

theorem upsert_map_key_subset {ρ κ : Type} [DecidableEq κ] (key : ρ → κ) (merge : ρ → ρ → ρ)
    (hkey : ∀ a b, key a = key b → key (merge a b) = key b)
    (row : ρ) (t : List ρ) :
    ∀ x ∈ (upsert key merge row t).map key, x = key row ∨ x ∈ t.map key := by
  induction t with
  | nil =>
      intro x hx
      simp [upsert_nil] at hx
      exact Or.inl hx
  | cons r rs ih =>
      intro x hx
      rw [upsert_cons] at hx
      by_cases h : key r = key row
      · rw [if_pos h] at hx
        simp only [List.map_cons, List.mem_cons] at hx
        rcases hx with he | hm
        · exact Or.inl (he.trans (hkey r row h))
        · exact Or.inr (by simp [hm])
      · rw [if_neg h] at hx
        simp only [List.map_cons, List.mem_cons] at hx
        rcases hx with he | hm
        · exact Or.inr (by simp [he])
        · rcases ih x hm with h1 | h2
          · exact Or.inl h1
          · exact Or.inr (by simp [h2])

theorem upsert_key_mem {ρ κ : Type} [DecidableEq κ] (key : ρ → κ) (merge : ρ → ρ → ρ)
    (hkey : ∀ a b, key a = key b → key (merge a b) = key b)
    (row : ρ) (t : List ρ) : key row ∈ (upsert key merge row t).map key := by
  induction t with
  | nil => simp [upsert_nil]
  | cons r rs ih =>
      rw [upsert_cons]
      by_cases h : key r = key row
      · rw [if_pos h]
        simp [hkey r row h]
      · rw [if_neg h]
        simp only [List.map_cons, List.mem_cons]
        exact Or.inr ih

theorem upsert_length_of_mem {ρ κ : Type} [DecidableEq κ] (key : ρ → κ) (merge : ρ → ρ → ρ)
    (row : ρ) (t : List ρ) (h : key row ∈ t.map key) :
    (upsert key merge row t).length = t.length := by
  induction t with
  | nil => simp at h
  | cons r rs ih =>
      rw [upsert_cons]
      by_cases hr : key r = key row
      · rw [if_pos hr]; rfl
      · rw [if_neg hr]
        have : key row ∈ rs.map key := by
          simp only [List.map_cons, List.mem_cons] at h
          exact h.resolve_left (fun he => hr he.symm)
        simp [ih this]

theorem upsert_keysNodup {ρ κ : Type} [DecidableEq κ] (key : ρ → κ) (merge : ρ → ρ → ρ)
    (hkey : ∀ a b, key a = key b → key (merge a b) = key b)
    (row : ρ) (t : List ρ) (h : KeysNodup key t) : KeysNodup key (upsert key merge row t) := by
  induction t with
  | nil => simp [upsert_nil, KeysNodup]
  | cons r rs ih =>
      simp only [KeysNodup, List.map_cons, List.nodup_cons] at h
      rw [KeysNodup, upsert_cons]
      by_cases hr : key r = key row
      · rw [if_pos hr]
        simp only [List.map_cons, List.nodup_cons, hkey r row hr]
        exact ⟨hr ▸ h.1, h.2⟩
      · rw [if_neg hr]
        simp only [List.map_cons, List.nodup_cons]
        refine ⟨?_, ih h.2⟩
        intro hmem
        rcases upsert_map_key_subset key merge hkey row rs (key r) hmem with he | hm
        · exact hr he
        · exact h.1 hm

theorem upsert_filter_key {ρ κ : Type} [DecidableEq κ] (key : ρ → κ) (merge : ρ → ρ → ρ)
    (hmerge : ∀ a b, key a = key b → merge a b = b)
    (row : ρ) (t : List ρ) (h : KeysNodup key t) :
    (upsert key merge row t).filter (fun r => key r = key row) = [row] := by
  induction t with
  | nil => simp [upsert_nil]
  | cons r rs ih =>
      simp only [KeysNodup, List.map_cons, List.nodup_cons] at h
      rw [upsert_cons]
      by_cases hr : key r = key row
      · rw [if_pos hr, hmerge r row hr]
        rw [List.filter_cons_of_pos (by simp)]
        have hnil : rs.filter (fun r => decide (key r = key row)) = [] := by
          apply List.filter_eq_nil_iff.mpr
          intro x hx hxk
          have hkx : key x = key row := of_decide_eq_true hxk
          exact h.1 (hr ▸ hkx ▸ List.mem_map_of_mem key hx)
        rw [hnil]
      · rw [if_neg hr, List.filter_cons_of_neg (by simpa using hr)]
        exact ih h.2

/-! ### Per-relation merge compatibility: the `DO UPDATE SET` lists of
`ingest.py` touch no key column, and on a key match they replace every
non-key column with the incoming value. -/

theorem mergeByc_key (a b : BycRow) : keyByc (mergeByc a b) = keyByc a := rfl

theorem mergeByc_eq (a b : BycRow) (h : keyByc a = keyByc b) : mergeByc a b = b := by
  cases a; cases b
  simp only [keyByc, Prod.mk.injEq] at h
  simp [mergeByc, h.1, h.2.1, h.2.2]

theorem mergeBox_key (a b : BoxRow) : keyBox (mergeBox a b) = keyBox a := rfl

theorem mergeBox_eq (a b : BoxRow) (h : keyBox a = keyBox b) : mergeBox a b = b := by
  cases a; cases b
  simp only [keyBox, Prod.mk.injEq] at h
  simp [mergeBox, h.1, h.2]

theorem mergeCvh_key (a b : CvhRow) : keyCvh (mergeCvh a b) = keyCvh a := rfl

theorem mergeCvh_eq (a b : CvhRow) (h : keyCvh a = keyCvh b) : mergeCvh a b = b := by
  cases a; cases b
  simp only [keyCvh, Prod.mk.injEq] at h
  simp [mergeCvh, h.1, h.2.1, h.2.2]

theorem mergeGam_key (a b : GamRow) : keyGam (mergeGam a b) = keyGam a := rfl

theorem mergeGam_eq (a b : GamRow) (h : keyGam a = keyGam b) : mergeGam a b = b := by
  cases a; cases b
  simp only [keyGam, Prod.mk.injEq] at h
  simp [mergeGam, h.1, h.2.1, h.2.2]

theorem mergeMsy_key (a b : MsyRow) : keyMsy (mergeMsy a b) = keyMsy a := rfl

theorem mergeMsy_eq (a b : MsyRow) (h : keyMsy a = keyMsy b) : mergeMsy a b = b := by
  cases a; cases b
  simp only [keyMsy, Prod.mk.injEq] at h
  simp [mergeMsy, h.1, h.2.1, h.2.2]

/-- Shared shape of the double-ingestion property: after upserting `row1`
and then `row2` carrying the same natural key, exactly one row holds that
key, it is `row2` itself (every non-key field is the second ingestion's
value), the second upsert added no row, and key uniqueness is preserved. -/
theorem upsert_twice {ρ κ : Type} [DecidableEq κ] (key : ρ → κ) (merge : ρ → ρ → ρ)
    (hkey : ∀ a b, key a = key b → key (merge a b) = key b)
    (hmerge : ∀ a b, key a = key b → merge a b = b)
    (t : List ρ) (row1 row2 : ρ) (h : KeysNodup key t) (hk : key row1 = key row2) :
    (upsert key merge row2 (upsert key merge row1 t)).filter
        (fun r => key r = key row2) = [row2] ∧
    (upsert key merge row2 (upsert key merge row1 t)).length =
        (upsert key merge row1 t).length ∧
    KeysNodup key (upsert key merge row2 (upsert key merge row1 t)) := by
  have h1 : KeysNodup key (upsert key merge row1 t) :=
    upsert_keysNodup key merge hkey row1 t h
  refine ⟨upsert_filter_key key merge hmerge row2 _ h1, ?_, ?_⟩
  · exact upsert_length_of_mem key merge row2 _ (hk ▸ upsert_key_mem key merge hkey row1 t)
  · exact upsert_keysNodup key merge hkey row2 _ h1

/-! ## Entity resolvers (ingest.py `get_or_create_commodity` /
`get_or_create_country`)

`insertFails` marks the run in which the INSERT statement raises (e.g. a
concurrent resolver already inserted the same natural key).  The
commodity resolver has no `try/except` around its INSERT, so a failure
there is propagated (`Except.error`); the country resolver wraps its
INSERT in `try/except Exception: pass`. -/

/-- Surrogate id assigned to a freshly inserted row. -/
def freshId (ids : List ℤ) : ℤ := ids.foldr max 0 + 1

/-- `name.lower().replace(" ", "_")` — slug derivation at creation time. -/
def slugify (s : String) : String :=
  ⟨(pyLower s).data.map (fun c => if c = ' ' then '_' else c)⟩

/-- `ingest.py::get_or_create_commodity`.  Python evaluates
`name.lower()` while building the INSERT arguments, so a missing name
raises (`AttributeError`) before any insert; and the INSERT itself is not
guarded, so its failure propagates. -/
def get_or_create_commodity (db : DB) (name : Option String) (insertFails : Bool) :
    Except Unit (DB × ℤ) :=
  match db.commodities.find? (fun c => sqlEq c.name name) with
  | some row => .ok (db, row.id)
  | none =>
      match name with
      | none => .error ()
      | some s =>
          if insertFails then .error ()
          else
            let db1 := { db with commodities := db.commodities ++
              ([⟨freshId (db.commodities.map Commodity.id), some s, some (slugify s)⟩] :
                List Commodity) }
            match db1.commodities.find? (fun c => sqlEq c.name name) with
            | some row => .ok (db1, row.id)
            | none => .ok (db1, 0)

/-- `ingest.py::get_or_create_country`.  The INSERT is wrapped in
`try/except: pass`, after which the function re-queries by code; the
second lookup's id (or 0 when even that finds nothing) is the result. -/
def get_or_create_country (db : DB) (code name : Option String) (insertFails : Bool) :
    Except Unit (DB × ℤ) :=
  match db.countries.find? (fun c => sqlEq c.code code) with
  | some row => .ok (db, row.id)
  | none =>
      let db1 := if insertFails then db
        else { db with countries := db.countries ++
          ([⟨freshId (db.countries.map Country.id), code, pyOr name code⟩] :
            List Country) }
      match db1.countries.find? (fun c => sqlEq c.code code) with
      | some row => .ok (db1, row.id)
      | none => .ok (db1, 0)

/-- The five feed identifiers of `utils/config.py::ENDPOINTS`. -/
inductive Feed where
  | climate_risk_by_country
  | risk_compared_hist_box
  | risk_current_vs_hist
  | risk_global_avg_max
  | most_similar_year
deriving DecidableEq, Repr

/-- The country code handed to `get_or_create_country` by each feed
branch of `ingest.py::ingest_endpoint`, as a function of the record's raw
`country_code` and `country_name` fields:
* `climate_risk_by_country` (line 72) and `risk_compared_hist_box`
  (line 106) pass `r.get("country_code")` through unchanged;
* `risk_current_vs_hist` (line 145) derives
  `(r.get("country_name") or "").upper()[:3] or "GLB"`;
* `risk_global_avg_max` (line 179) and `most_similar_year` (line 212)
  use `r.get("country_code") or "GLB"`. -/
def resolvedCountryCode (feed : Feed) (country_code country_name : Option String) :
    Option String :=
  match feed with
  | .climate_risk_by_country => country_code
  | .risk_compared_hist_box => country_code
  | .risk_current_vs_hist =>
      let s := pySlice (pyUpper ((pyOr country_name (some "")).getD "")) 3
      some (if s = "" then "GLB" else s)
  | .risk_global_avg_max => pyOr country_code (some "GLB")
  | .most_similar_year => pyOr country_code (some "GLB")

example : resolvedCountryCode .risk_current_vs_hist none (some "India") = some "IND" := by
  decide
example : resolvedCountryCode .risk_current_vs_hist none none = some "GLB" := by decide
example : resolvedCountryCode .risk_global_avg_max (some "BR") none = some "BR" := by decide
example : resolvedCountryCode .climate_risk_by_country none (some "India") = none := by decide

/-! ## Analytical query engine (queries.py)

SQL `ORDER BY` clauses are modelled with `List.insertionSort` over total
preorders built from sort keys.  SQLite sorts `NULL` below every value,
so `NULL` columns are mapped into `WithBot` (`ASC` puts them first,
`DESC` puts them last); `(col IS NULL) ASC` prefixes put them last
explicitly. -/

/-- SQL NULL-aware view of a nullable integer column for ordering. -/
def toWB (o : Option ℤ) : WithBot ℤ :=
  match o with
  | none => ⊥
  | some x => (x : WithBot ℤ)

/-- Single-key ordering: `a` before `b` iff `f a ≤ f b`. -/
abbrev keyLe {α β : Type} [LinearOrder β] (f : α → β) (a b : α) : Prop := f a ≤ f b

instance {α β : Type} [LinearOrder β] (f : α → β) : DecidableRel (keyLe f) :=
  fun a b => inferInstanceAs (Decidable (f a ≤ f b))

instance {α β : Type} [LinearOrder β] (f : α → β) : IsTotal α (keyLe f) :=
  ⟨fun a b => le_total (f a) (f b)⟩

instance {α β : Type} [LinearOrder β] (f : α → β) : IsTrans α (keyLe f) :=
  ⟨fun _ _ _ h1 h2 => le_trans h1 h2⟩

/-- Two-key lexicographic ordering (primary key `f`, tie-break `g`). -/
abbrev lex2 {α β γ : Type} [LinearOrder β] [LinearOrder γ] (f : α → β) (g : α → γ)
    (a b : α) : Prop :=
  f a < f b ∨ (f a = f b ∧ g a ≤ g b)

instance {α β γ : Type} [LinearOrder β] [LinearOrder γ] (f : α → β) (g : α → γ) :
    DecidableRel (lex2 f g) :=
  fun a b => inferInstanceAs (Decidable (f a < f b ∨ (f a = f b ∧ g a ≤ g b)))

instance {α β γ : Type} [LinearOrder β] [LinearOrder γ] (f : α → β) (g : α → γ) :
    IsTotal α (lex2 f g) := by
  refine ⟨fun a b => ?_⟩
  rcases lt_trichotomy (f a) (f b) with h | h | h
  · exact Or.inl (Or.inl h)
  · exact (le_total (g a) (g b)).imp (fun hg => Or.inr ⟨h, hg⟩) (fun hg => Or.inr ⟨h.symm, hg⟩)
  · exact Or.inr (Or.inl h)

instance {α β γ : Type} [LinearOrder β] [LinearOrder γ] (f : α → β) (g : α → γ) :
    IsTrans α (lex2 f g) := by
  refine ⟨fun a b c hab hbc => ?_⟩
  rcases hab with h1 | ⟨h1, hg1⟩ <;> rcases hbc with h2 | ⟨h2, hg2⟩
  · exact Or.inl (h1.trans h2)
  · exact Or.inl (h2 ▸ h1)
  · exact Or.inl (h1 ▸ h2)
  · exact Or.inr ⟨h1.trans h2, hg1.trans hg2⟩

/-- SQL `(col IS NULL)` as a sort key: non-NULL first. -/
def nullRank (o : Option ℚ) : ℕ := if o.isNone then 1 else 0

/-- A `climate_risk_by_country` row joined to its commodity and country
(display columns of the queries' JOIN clauses). -/
structure BycJoined where
  commodity : Option String
  country_code : Option String
  country_name : Option String
  r : BycRow
deriving DecidableEq, Repr

/-- Nested-loop inner join of `climate_risk_by_country` with
`commodities` and `countries` on the surrogate ids. -/
def joinByc (db : DB) : List BycJoined :=
  db.byc.flatMap (fun b =>
    (db.commodities.filter (fun com => com.id == b.commodity_id)).flatMap (fun com =>
      (db.countries.filter (fun ctry => ctry.id == b.country_id)).map (fun ctry =>
        { commodity := com.name, country_code := ctry.code, country_name := ctry.name,
          r := b })))

/-- Result shape of `queries.py::compare_country_year_vs_hist`: the
selected row columns together with the derived `delta`/`pct`, which are
explicitly present (possibly NULL). -/
structure CompareResult where
  commodity : Option String
  country_code : Option String
  country_name : Option String
  hist_avg_wapr : Option ℚ
  this_year_avg_wapr : Option ℚ
  delta : Option ℚ
  pct : Option ℚ
deriving DecidableEq, Repr

/-- WHERE clause of `compare_country_year_vs_hist`. -/
def compareFilter (commodity country_code : String) (year : ℤ) (j : BycJoined) : Bool :=
  sqlEq j.commodity (some commodity) && sqlEq j.country_code (some country_code) &&
    sqlEq j.r.year (some year)

/-- `queries.py::compare_country_year_vs_hist`.  `fetch_one` without an
ORDER BY is modelled as the head of the join list. -/
def compare_country_year_vs_hist (db : DB) (commodity country_code : String) (year : ℤ) :
    Option CompareResult :=
  match ((joinByc db).filter (compareFilter commodity country_code year)).head? with
  | none => none
  | some j =>
      match j.r.hist_avg_wapr, j.r.this_year_avg_wapr with
      | some hist, some curr =>
          some { commodity := j.commodity, country_code := j.country_code,
                 country_name := j.country_name, hist_avg_wapr := some hist,
                 this_year_avg_wapr := some curr, delta := some (curr - hist),
                 pct := if hist = 0 then none else some ((curr - hist) / hist * 100) }
      | hist, curr =>
          some { commodity := j.commodity, country_code := j.country_code,
                 country_name := j.country_name, hist_avg_wapr := hist,
                 this_year_avg_wapr := curr, delta := none, pct := none }

example :
    compare_country_year_vs_hist ⟨[⟨1, some "Rice", some "rice"⟩], [⟨1, some "IN", some "India"⟩],
      [⟨none, 1, 1, some 2025, some 30, some 38, none, none, none, none⟩], [], [], [], []⟩
      "Rice" "IN" 2025 =
    some ⟨some "Rice", some "IN", some "India", some 30, some 38, some 8, some (80/3)⟩ := by
  norm_num [compare_country_year_vs_hist, joinByc, compareFilter, sqlEq]

/-- Strict-sign direction classification of
`queries.py::get_country_season_change`. -/
def direction (delta : ℚ) : String :=
  if 0 < delta then "increase" else if delta < 0 then "decrease" else "no_change"

/-- WHERE clause of the season-change snapshot query. -/
def seasonFilter (commodity country_code : String) (j : BycJoined) : Bool :=
  sqlEq j.commodity (some commodity) && sqlEq j.country_code (some country_code)

/-- The `ORDER BY byc.year DESC LIMIT 2` snapshot list of
`get_country_season_change` (SQLite sorts NULL years last on DESC). -/
def seasonRows (db : DB) (country_code commodity : String) : List BycJoined :=
  (((joinByc db).filter (seasonFilter commodity country_code)).insertionSort
    (keyLe (fun j => OrderDual.toDual (toWB j.r.year)))).take 2

/-- Result shape of `get_country_season_change`. -/
structure SeasonChange where
  commodity : String
  country_code : String
  current_year : Option ℤ
  current_wapr : ℚ
  previous_wapr : ℚ
  delta : ℚ
  direction : String
deriving DecidableEq, Repr

/-- Post-fetch logic of `queries.py::get_country_season_change` over the
fetched snapshot list: compare the two most recent yearly snapshots; with
a single snapshot (or a NULL previous value) fall back to the latest
snapshot's historical average; `None` when no snapshot exists or the
latest snapshot's current value or historical average is NULL. -/
def seasonChangeOfRows (country_code commodity : String) :
    List BycJoined → Option SeasonChange
  | [] => none
  | latest :: rest =>
      match latest.r.this_year_avg_wapr, latest.r.hist_avg_wapr with
      | some current_wapr, some hist_avg =>
          match rest with
          | prev :: _ =>
              match prev.r.this_year_avg_wapr with
              | some prev_wapr =>
                  some ⟨commodity, country_code, latest.r.year, current_wapr, prev_wapr,
                        current_wapr - prev_wapr, direction (current_wapr - prev_wapr)⟩
              | none =>
                  some ⟨commodity, country_code, latest.r.year, current_wapr, hist_avg,
                        current_wapr - hist_avg, direction (current_wapr - hist_avg)⟩
          | [] =>
              some ⟨commodity, country_code, latest.r.year, current_wapr, hist_avg,
                    current_wapr - hist_avg, direction (current_wapr - hist_avg)⟩
      | _, _ => none

/-- `queries.py::get_country_season_change`. -/
def get_country_season_change (db : DB) (country_code commodity : String) :
    Option SeasonChange :=
  seasonChangeOfRows country_code commodity (seasonRows db country_code commodity)

/-- Selected columns of `get_top_k_lowest_hist_risk`. -/
structure TopLowRow where
  country_name : Option String
  country_code : Option String
  hist_avg_wapr : Option ℚ
deriving DecidableEq, Repr

/-- `queries.py::get_top_k_lowest_hist_risk`:
`ORDER BY (hist_avg_wapr IS NULL) ASC, hist_avg_wapr ASC LIMIT k`.
`k` is a natural number (the API schema validates `1 ≤ k ≤ 50`). -/
def get_top_k_lowest_hist_risk (db : DB) (commodity : String) (k : ℕ) : List TopLowRow :=
  ((((joinByc db).filter (fun j => sqlEq j.commodity (some commodity))).map
      (fun j => TopLowRow.mk j.country_name j.country_code j.r.hist_avg_wapr)).insertionSort
      (lex2 (fun r => nullRank r.hist_avg_wapr) (fun r => r.hist_avg_wapr.getD 0))).take k

/-- Selected columns of `get_top_k_highest_current_risk`. -/
structure TopHighRow where
  country_name : Option String
  country_code : Option String
  commodity : Option String
  this_year_avg_wapr : Option ℚ
  hist_avg_wapr : Option ℚ
  year : Option ℤ
deriving DecidableEq, Repr

/-- `queries.py::get_top_k_highest_current_risk`:
`WHERE this_year_avg_wapr IS NOT NULL … ORDER BY this_year_avg_wapr DESC,
year DESC LIMIT k`. -/
def get_top_k_highest_current_risk (db : DB) (commodity : String) (k : ℕ) :
    List TopHighRow :=
  ((((joinByc db).filter (fun j =>
        j.r.this_year_avg_wapr.isSome && sqlEq j.commodity (some commodity))).map
      (fun j => TopHighRow.mk j.country_name j.country_code j.commodity
        j.r.this_year_avg_wapr j.r.hist_avg_wapr j.r.year)).insertionSort
      (lex2 (fun r => OrderDual.toDual (r.this_year_avg_wapr.getD 0))
        (fun r => OrderDual.toDual (toWB r.year)))).take k

/-- A `risk_compared_hist_box` row joined to its commodity and country. -/
structure BoxJoined where
  commodity : Option String
  country_code : Option String
  country_name : Option String
  r : BoxRow
deriving DecidableEq, Repr

/-- Nested-loop inner join of `risk_compared_hist_box` with
`commodities` and `countries`. -/
def joinBox (db : DB) : List BoxJoined :=
  db.box.flatMap (fun b =>
    (db.commodities.filter (fun com => com.id == b.commodity_id)).flatMap (fun com =>
      (db.countries.filter (fun ctry => ctry.id == b.country_id)).map (fun ctry =>
        { commodity := com.name, country_code := ctry.code, country_name := ctry.name,
          r := b })))

/-- Selected columns of `get_upcoming_spike_regions`. -/
structure SpikeRow where
  country_name : Option String
  country_code : Option String
  avg_risk_score_diff : Option ℚ
  upcoming_year_risk_score : Option ℚ
deriving DecidableEq, Repr

/-- WHERE clause of `get_upcoming_spike_regions`: `upcoming_season = 1`,
non-NULL diff, and diff strictly above the threshold. -/
def spikeFilter (commodity : String) (threshold : ℚ) (j : BoxJoined) : Bool :=
  sqlEq j.commodity (some commodity) && sqlEq j.r.upcoming_season (some 1) &&
    (match j.r.avg_risk_score_diff with
     | some d => decide (threshold < d)
     | none => false)

/-- `queries.py::get_upcoming_spike_regions`: filter, order by the diff
descending, no LIMIT. -/
def get_upcoming_spike_regions (db : DB) (commodity : String) (threshold : ℚ) :
    List SpikeRow :=
  (((joinBox db).filter (spikeFilter commodity threshold)).map
      (fun j => SpikeRow.mk j.country_name j.country_code j.r.avg_risk_score_diff
        j.r.upcoming_year_risk_score)).insertionSort
      (keyLe (fun r => OrderDual.toDual (r.avg_risk_score_diff.getD 0)))

/-- Trend label shared by the two EU comparison queries. -/
def trendStr (delta : ℚ) : String :=
  if 0 < delta then "increased" else if delta < 0 then "decreased" else "unchanged"

/-- Result shape of the EU comparison queries (`commodity` is `none` for
the overall variant, which has no commodity key in its answer). -/
structure EuCmp where
  commodity : Option String
  region : String
  current_year : ℤ
  previous_year : ℤ
  current_wapr : ℚ
  previous_wapr : ℚ
  delta : ℚ
  percent_change : Option ℚ
  trend : String
deriving DecidableEq, Repr

/-- Rows feeding `get_eu_risk_comparison` for one year: commodity, the
`'EU'` country code and the year. -/
def euRowsFor (db : DB) (commodity : String) (year : ℤ) : List BycJoined :=
  (joinByc db).filter (fun j => sqlEq j.commodity (some commodity) &&
    sqlEq j.r.year (some year) && sqlEq j.country_code (some "EU"))

/-- `queries.py::get_eu_risk_comparison`: one row per year (fetch_one),
delta / percent (NULL on zero denominator) / trend classification. -/
def get_eu_risk_comparison (db : DB) (commodity : String) (current_year previous_year : ℤ) :
    Option EuCmp :=
  match (euRowsFor db commodity current_year).head?,
        (euRowsFor db commodity previous_year).head? with
  | some cr, some pr =>
      match cr.r.this_year_avg_wapr, pr.r.this_year_avg_wapr with
      | some current_wapr, some previous_wapr =>
          some ⟨some commodity, "European Union", current_year, previous_year,
                current_wapr, previous_wapr, current_wapr - previous_wapr,
                if previous_wapr = 0 then none
                else some ((current_wapr - previous_wapr) / previous_wapr * 100),
                trendStr (current_wapr - previous_wapr)⟩
      | _, _ => none
  | _, _ => none

/-- The non-NULL current-year values over all `'EU'` rows of one year
(the operand list of the SQL `AVG`). -/
def euOverallVals (db : DB) (year : ℤ) : List ℚ :=
  ((joinByc db).filter (fun j => sqlEq j.country_code (some "EU") &&
    sqlEq j.r.year (some year) && j.r.this_year_avg_wapr.isSome)).filterMap
    (fun j => j.r.this_year_avg_wapr)

/-- SQL `AVG`: NULL over the empty set, the arithmetic mean otherwise. -/
def sqlAvg (l : List ℚ) : Option ℚ :=
  match l with
  | [] => none
  | _ => some (l.sum / l.length)

/-- `queries.py::get_eu_overall_risk_comparison`: average current WAPR
across all commodities for the `'EU'` country, per year, then the same
delta / percent / trend classification. -/
def get_eu_overall_risk_comparison (db : DB) (current_year previous_year : ℤ) :
    Option EuCmp :=
  match sqlAvg (euOverallVals db current_year), sqlAvg (euOverallVals db previous_year) with
  | some current_wapr, some previous_wapr =>
      some ⟨none, "European Union", current_year, previous_year,
            current_wapr, previous_wapr, current_wapr - previous_wapr,
            if previous_wapr = 0 then none
            else some ((current_wapr - previous_wapr) / previous_wapr * 100),
            trendStr (current_wapr - previous_wapr)⟩
  | _, _ => none

/-- A `most_similar_year` row joined to its commodity and country. -/
structure MsyJoined where
  commodity : Option String
  country_code : Option String
  country_name : Option String
  m : MsyRow
deriving DecidableEq, Repr

/-- Nested-loop inner join of `most_similar_year` with `commodities` and
`countries`. -/
def joinMsy (db : DB) : List MsyJoined :=
  db.msy.flatMap (fun m =>
    (db.commodities.filter (fun com => com.id == m.commodity_id)).flatMap (fun com =>
      (db.countries.filter (fun ctry => ctry.id == m.country_id)).map (fun ctry =>
        { commodity := com.name, country_code := ctry.code, country_name := ctry.name,
          m := m })))

/-- Shared body of both branches of `get_most_similar_year`: filter by
commodity name and country code, `ORDER BY this_growing_season_year DESC
LIMIT 1`. -/
def msyQuery (db : DB) (commodity : String) (code : Option String) : Option MsyJoined :=
  (((joinMsy db).filter (fun j => sqlEq j.commodity (some commodity) &&
      sqlEq j.country_code code)).insertionSort
    (keyLe (fun j => OrderDual.toDual (toWB j.m.this_growing_season_year)))).head?

/-- `queries.py::get_most_similar_year`: the country branch is taken only
when `scope == "country"` and the code is truthy; every other call uses
the fixed `'GLB'` country. -/
def get_most_similar_year (db : DB) (commodity : String) (scope : String)
    (country_code : Option String) : Option MsyJoined :=
  if scope = "country" ∧ pyTruthy country_code then msyQuery db commodity country_code
  else msyQuery db commodity (some "GLB")

/-- Selected columns of `get_yield_and_risk_relation` (plus the commodity
name and country code the WHERE clause constrains). -/
structure YieldJoined where
  yield_rating : Option String
  total_yield : Option ℚ
  total_yield_unit : Option String
  hist_avg_wapr : Option ℚ
  hist_max_wapr : Option ℚ
  this_growing_season_year : Option ℤ
  commodity : Option String
  country_code : Option String
deriving DecidableEq, Repr

/-- Join of `most_similar_year` LEFT JOIN `risk_global_avg_max` (on
commodity, country and season year) JOIN `commodities`/`countries`: when
no `risk_global_avg_max` row matches, the risk columns are NULL. -/
def joinYield (db : DB) : List YieldJoined :=
  db.msy.flatMap (fun m =>
    (db.commodities.filter (fun com => com.id == m.commodity_id)).flatMap (fun com =>
      let gs := db.gam.filter (fun g => g.commodity_id == m.commodity_id &&
        g.country_id == m.country_id && sqlEq g.year m.this_growing_season_year)
      let gOpts : List (Option GamRow) := if gs.isEmpty then [none] else gs.map some
      gOpts.flatMap (fun gOpt =>
        (db.countries.filter (fun ctry => ctry.id == m.country_id)).map (fun ctry =>
          ⟨m.yield_rating, m.total_yield, m.total_yield_unit,
           gOpt.bind GamRow.hist_avg_wapr, gOpt.bind GamRow.hist_max_wapr,
           m.this_growing_season_year, com.name, ctry.code⟩))))

/-- Shared body of both branches of `get_yield_and_risk_relation`. -/
def yieldQuery (db : DB) (commodity : String) (code : Option String) : Option YieldJoined :=
  (((joinYield db).filter (fun j => sqlEq j.commodity (some commodity) &&
      sqlEq j.country_code code)).insertionSort
    (keyLe (fun j => OrderDual.toDual (toWB j.this_growing_season_year)))).head?

/-- `queries.py::get_yield_and_risk_relation`: same scope dispatch as
`get_most_similar_year`. -/
def get_yield_and_risk_relation (db : DB) (commodity : String) (scope : String)
    (country_code : Option String) : Option YieldJoined :=
  if scope = "country" ∧ pyTruthy country_code then yieldQuery db commodity country_code
  else yieldQuery db commodity (some "GLB")

/-! ## Shared concrete fixtures -/

/-- The empty store. -/
def emptyDb : DB := ⟨[], [], [], [], [], [], []⟩

/-- First ingestion of a `(commodity 1, country 1, year 2025)` record. -/
def bycA : BycRow :=
  ⟨some "k1", 1, 1, some 2025, some 30, some 30, some 1, none, some 0, none⟩

/-- Second ingestion of the same natural key: differing values, and a
NULL (`hist_avg_wapr`) overwriting a previously present value. -/
def bycB : BycRow :=
  ⟨some "k2", 1, 1, some 2025, none, some 38, none, some 1, none, some 0⟩

/-! ## Claims -/

/-- C1: For every fact relation and every record, ingesting the same
record (same natural key) twice leaves exactly one row per natural key,
whose every non-key field equals the value carried by the second
ingestion — including a NULL overwriting a present value, since the row
equals the second ingested row outright — and the second ingestion never
creates a duplicate row (the table length is unchanged); key uniqueness
is preserved. -/
theorem c1_upsert_idempotent_last_write_wins :
    (∀ (t : List BycRow) (row1 row2 : BycRow), KeysNodup keyByc t →
      keyByc row1 = keyByc row2 →
      (upsertByc row2 (upsertByc row1 t)).filter (fun r => keyByc r = keyByc row2) = [row2] ∧
      (upsertByc row2 (upsertByc row1 t)).length = (upsertByc row1 t).length ∧
      KeysNodup keyByc (upsertByc row2 (upsertByc row1 t))) ∧
    (∀ (t : List BoxRow) (row1 row2 : BoxRow), KeysNodup keyBox t →
      keyBox row1 = keyBox row2 →
      (upsertBox row2 (upsertBox row1 t)).filter (fun r => keyBox r = keyBox row2) = [row2] ∧
      (upsertBox row2 (upsertBox row1 t)).length = (upsertBox row1 t).length ∧
      KeysNodup keyBox (upsertBox row2 (upsertBox row1 t))) ∧
    (∀ (t : List CvhRow) (row1 row2 : CvhRow), KeysNodup keyCvh t →
      keyCvh row1 = keyCvh row2 →
      (upsertCvh row2 (upsertCvh row1 t)).filter (fun r => keyCvh r = keyCvh row2) = [row2] ∧
      (upsertCvh row2 (upsertCvh row1 t)).length = (upsertCvh row1 t).length ∧
      KeysNodup keyCvh (upsertCvh row2 (upsertCvh row1 t))) ∧
    (∀ (t : List GamRow) (row1 row2 : GamRow), KeysNodup keyGam t →
      keyGam row1 = keyGam row2 →
      (upsertGam row2 (upsertGam row1 t)).filter (fun r => keyGam r = keyGam row2) = [row2] ∧
      (upsertGam row2 (upsertGam row1 t)).length = (upsertGam row1 t).length ∧
      KeysNodup keyGam (upsertGam row2 (upsertGam row1 t))) ∧
    (∀ (t : List MsyRow) (row1 row2 : MsyRow), KeysNodup keyMsy t →
      keyMsy row1 = keyMsy row2 →
      (upsertMsy row2 (upsertMsy row1 t)).filter (fun r => keyMsy r = keyMsy row2) = [row2] ∧
      (upsertMsy row2 (upsertMsy row1 t)).length = (upsertMsy row1 t).length ∧
      KeysNodup keyMsy (upsertMsy row2 (upsertMsy row1 t))) := by
  refine ⟨?_, ?_, ?_, ?_, ?_⟩
  · exact fun t r1 r2 h hk =>
      upsert_twice keyByc mergeByc (fun a b hab => (mergeByc_key a b).trans hab)
        mergeByc_eq t r1 r2 h hk
  · exact fun t r1 r2 h hk =>
      upsert_twice keyBox mergeBox (fun a b hab => (mergeBox_key a b).trans hab)
        mergeBox_eq t r1 r2 h hk
  · exact fun t r1 r2 h hk =>
      upsert_twice keyCvh mergeCvh (fun a b hab => (mergeCvh_key a b).trans hab)
        mergeCvh_eq t r1 r2 h hk
  · exact fun t r1 r2 h hk =>
      upsert_twice keyGam mergeGam (fun a b hab => (mergeGam_key a b).trans hab)
        mergeGam_eq t r1 r2 h hk
  · exact fun t r1 r2 h hk =>
      upsert_twice keyMsy mergeMsy (fun a b hab => (mergeMsy_key a b).trans hab)
        mergeMsy_eq t r1 r2 h hk

/-- C1 witness: double ingestion of one `climate_risk_by_country` key on
an empty table — one final row equal to the second record (its NULL
`hist_avg_wapr` included), no duplicate. -/
theorem c1_upsert_idempotent_last_write_wins_witness :
    KeysNodup keyByc ([] : List BycRow) ∧ keyByc bycA = keyByc bycB ∧
    ((upsertByc bycB (upsertByc bycA [])).filter (fun r => keyByc r = keyByc bycB) = [bycB] ∧
     (upsertByc bycB (upsertByc bycA [])).length = (upsertByc bycA []).length ∧
     KeysNodup keyByc (upsertByc bycB (upsertByc bycA []))) :=
  ⟨by simp [KeysNodup], rfl,
   c1_upsert_idempotent_last_write_wins.1 [] bycA bycB (by simp [KeysNodup]) rfl⟩

/-- C2 counterexample: the claim says both resolvers swallow an insert
failure, but `get_or_create_commodity` has no `try/except` — at an empty
store, when the INSERT of the new name "Rice" fails, the failure is
propagated to the caller. -/
theorem c2_counterexample_commodity_insert_propagates :
    get_or_create_commodity emptyDb (some "Rice") true = .error () := rfl

/-- C2 (amended): only `get_or_create_country` swallows an insert
failure — it always returns `ok`, with the re-query by natural key being
authoritative for the returned id (0 when even the second lookup finds
nothing); `get_or_create_commodity` propagates its insert failure
whenever the name is not yet present. -/
theorem c2_resolver_race_policy :
    (∀ (db : DB) (code name : Option String),
      get_or_create_country db code name true =
        .ok (db, ((db.countries.find? (fun c => sqlEq c.code code)).map Country.id).getD 0)) ∧
    (∀ (db : DB) (name : String),
      db.commodities.find? (fun c => sqlEq c.name (some name)) = none →
      get_or_create_commodity db (some name) true = .error ()) := by
  constructor
  · intro db code name
    unfold get_or_create_country
    cases hf : db.countries.find? (fun c => sqlEq c.code code) with
    | none => simp [hf]
    | some row => simp [hf]
  · intro db name hf
    unfold get_or_create_commodity
    rw [hf]
    rfl

/-- C2 witness: at the empty store the country resolver recovers from a
failing insert (result id 0 from the authoritative re-query), while the
commodity resolver propagates the same failure. -/
theorem c2_resolver_race_policy_witness :
    get_or_create_country emptyDb (some "IN") none true = .ok (emptyDb, 0) ∧
    get_or_create_commodity emptyDb (some "Wheat") true = .error () := by
  constructor
  · rw [c2_resolver_race_policy.1 emptyDb (some "IN") none]
    rfl
  · exact c2_resolver_race_policy.2 emptyDb "Wheat" rfl

/-- Taking the first 3 characters of the uppercased form of a non-empty
string yields a non-empty string. -/
theorem pySlice_pyUpper_ne_empty (t : String) (h : t ≠ "") :
    pySlice (pyUpper t) 3 ≠ "" := by
  intro hc
  apply h
  apply String.ext
  have hdata : (pySlice (pyUpper t) 3).data = [] := by rw [hc]
  cases ht : t.data with
  | nil => rfl
  | cons c cs =>
      exfalso
      rw [pySlice, pyUpper, ht] at hdata
      simp at hdata

/-- C9 counterexample: the claim says a record with a missing
`country_code` always resolves to a non-empty code (`"GLB"` by default),
but the `climate_risk_by_country` feed branch passes the missing code
through unchanged — the resolver receives NULL, not `"GLB"`. -/
theorem c9_counterexample_byc_missing_code_stays_null :
    resolvedCountryCode .climate_risk_by_country none (some "India") = none := rfl

/-- C9 (amended): the `"GLB"` default applies to the
`risk_global_avg_max` and `most_similar_year` feeds; the
`risk_current_vs_hist` feed derives a never-empty code — the first 3
characters of the uppercased display name, or `"GLB"` when the name is
absent or empty; the `climate_risk_by_country` and
`risk_compared_hist_box` feeds pass the raw (possibly missing) code
through unchanged. -/
theorem c9_missing_country_code_fallbacks :
    (∀ name : Option String,
      resolvedCountryCode .risk_global_avg_max none name = some "GLB" ∧
      resolvedCountryCode .most_similar_year none name = some "GLB") ∧
    (∀ code name : Option String,
      resolvedCountryCode .climate_risk_by_country code name = code ∧
      resolvedCountryCode .risk_compared_hist_box code name = code) ∧
    (∀ code name : Option String, ∃ s : String,
      resolvedCountryCode .risk_current_vs_hist code name = some s ∧ s ≠ "" ∧
      ((name = none ∨ name = some "") → s = "GLB") ∧
      (∀ t : String, name = some t → t ≠ "" → s = pySlice (pyUpper t) 3)) := by
  refine ⟨fun name => ⟨rfl, rfl⟩, fun code name => ⟨rfl, rfl⟩, fun code name => ?_⟩
  match name with
  | none =>
      exact ⟨"GLB", rfl, by decide, fun _ => rfl, fun t ht => by cases ht⟩
  | some t =>
      by_cases ht : t = ""
      · subst ht
        exact ⟨"GLB", rfl, by decide, fun _ => rfl,
          fun u hu hne => absurd (by cases hu; rfl) hne.symm⟩
      · refine ⟨pySlice (pyUpper t) 3, ?_, pySlice_pyUpper_ne_empty t ht, ?_, ?_⟩
        · simp [resolvedCountryCode, pyOr, if_neg ht,
            if_neg (pySlice_pyUpper_ne_empty t ht)]
        · rintro (h | h)
          · cases h
          · cases h
            exact absurd rfl ht
        · intro u hu _
          cases hu
          rfl

/-- C9 witness: the `risk_current_vs_hist` derivation at a concrete
display name ("India" → "IND"). -/
theorem c9_missing_country_code_fallbacks_witness :
    resolvedCountryCode .risk_current_vs_hist none (some "India") = some "IND" := by
  obtain ⟨s, hs, -, -, hderive⟩ :=
    c9_missing_country_code_fallbacks.2.2 none (some "India")
  rw [hs, hderive "India" rfl (by decide)]
  decide

/-- C3: the numeric coercions return the parsed number for numbers and
numeric strings and `none` (never an exception — they are total) for
`None`, `"null"`, `""` and everything the builtins would fail on; the
boolean coercion maps (the normalised string form of) `{true,1,yes}` to
1, `{false,0,no}` to 0, and everything else — `None` included — to
`none`, its only possible results being `none`, `some 0`, `some 1`. -/
theorem c3_permissive_coercions :
    (safe_float .vnull = none ∧ safe_float (.vstr "null") = none ∧
     safe_float (.vstr "") = none ∧ safe_int .vnull = none ∧
     safe_int (.vstr "null") = none ∧ safe_int (.vstr "") = none) ∧
    (∀ n : ℤ, safe_float (.vint n) = some (n : ℚ) ∧ safe_int (.vint n) = some n) ∧
    (∀ q : ℚ, safe_float (.vfloat q) = some q) ∧
    (∀ (s : String) (q : ℚ), s ≠ "null" → s ≠ "" → parseFloatLit s = some q →
      safe_float (.vstr s) = some q) ∧
    (∀ (s : String) (n : ℤ), s ≠ "null" → s ≠ "" → parseIntLit s = some n →
      safe_int (.vstr s) = some n) ∧
    (∀ v : Value, pyFloat v = none → safe_float v = none) ∧
    (∀ v : Value, pyInt v = none → safe_int v = none) ∧
    (to_bool .vnull = none ∧ to_bool (.vbool true) = some 1 ∧
     to_bool (.vbool false) = some 0) ∧
    (∀ v : Value, v ≠ .vnull → (∀ b, v ≠ .vbool b) →
      (pyLower (pyStrip (pyStr v)) = "true" ∨ pyLower (pyStrip (pyStr v)) = "1" ∨
       pyLower (pyStrip (pyStr v)) = "yes") → to_bool v = some 1) ∧
    (∀ v : Value, v ≠ .vnull → (∀ b, v ≠ .vbool b) →
      (pyLower (pyStrip (pyStr v)) = "false" ∨ pyLower (pyStrip (pyStr v)) = "0" ∨
       pyLower (pyStrip (pyStr v)) = "no") → to_bool v = some 0) ∧
    (∀ v : Value, v ≠ .vnull → (∀ b, v ≠ .vbool b) →
      ¬(pyLower (pyStrip (pyStr v)) = "true" ∨ pyLower (pyStrip (pyStr v)) = "1" ∨
        pyLower (pyStrip (pyStr v)) = "yes") →
      ¬(pyLower (pyStrip (pyStr v)) = "false" ∨ pyLower (pyStrip (pyStr v)) = "0" ∨
        pyLower (pyStrip (pyStr v)) = "no") → to_bool v = none) ∧
    (∀ v : Value, to_bool v = none ∨ to_bool v = some 0 ∨ to_bool v = some 1) := by
  refine ⟨⟨rfl, rfl, rfl, rfl, rfl, rfl⟩, ?_, fun q => ?_, ?_, ?_, ?_, ?_,
    ⟨rfl, rfl, rfl⟩, ?_, ?_, ?_, ?_⟩
  · intro n
    constructor
    · rw [safe_float, if_neg (by simp)]
      rfl
    · rw [safe_int, if_neg (by simp)]
      rfl
  · rw [safe_float, if_neg (by simp)]
    rfl
  · intro s q h1 h2 h3
    rw [safe_float, if_neg]
    · exact h3
    · rintro (h | h | h)
      · cases h
      · exact h1 (by cases h; rfl)
      · exact h2 (by cases h; rfl)
  · intro s n h1 h2 h3
    rw [safe_int, if_neg]
    · exact h3
    · rintro (h | h | h)
      · cases h
      · exact h1 (by cases h; rfl)
      · exact h2 (by cases h; rfl)
  · intro v h
    rw [safe_float]
    split
    · rfl
    · exact h
  · intro v h
    rw [safe_int]
    split
    · rfl
    · exact h
  · intro v hnull hbool hmem
    cases v with
    | vnull => exact absurd rfl hnull
    | vbool b => exact absurd rfl (hbool b)
    | vint n =>
        simp only [to_bool]
        rcases hmem with h | h | h
        all_goals rw [h]
        all_goals decide
    | vfloat q =>
        simp only [to_bool]
        rcases hmem with h | h | h
        all_goals rw [h]
        all_goals decide
    | vstr s =>
        simp only [to_bool]
        rcases hmem with h | h | h
        all_goals rw [h]
        all_goals decide
  · intro v hnull hbool hmem
    cases v with
    | vnull => exact absurd rfl hnull
    | vbool b => exact absurd rfl (hbool b)
    | vint n =>
        simp only [to_bool]
        rcases hmem with h | h | h
        all_goals rw [h]
        all_goals decide
    | vfloat q =>
        simp only [to_bool]
        rcases hmem with h | h | h
        all_goals rw [h]
        all_goals decide
    | vstr s =>
        simp only [to_bool]
        rcases hmem with h | h | h
        all_goals rw [h]
        all_goals decide
  · intro v hnull hbool hnt hnf
    cases v with
    | vnull => exact absurd rfl hnull
    | vbool b => exact absurd rfl (hbool b)
    | vint n =>
        simp only [to_bool]
        rw [if_neg hnt, if_neg hnf]
    | vfloat q =>
        simp only [to_bool]
        rw [if_neg hnt, if_neg hnf]
    | vstr s =>
        simp only [to_bool]
        rw [if_neg hnt, if_neg hnf]
  · intro v
    cases v with
    | vnull => exact Or.inl rfl
    | vbool b => cases b
                 · exact Or.inr (Or.inl rfl)
                 · exact Or.inr (Or.inr rfl)
    | vint n =>
        simp only [to_bool]
        split
        · exact Or.inr (Or.inr rfl)
        · split
          · exact Or.inr (Or.inl rfl)
          · exact Or.inl rfl
    | vfloat q =>
        simp only [to_bool]
        split
        · exact Or.inr (Or.inr rfl)
        · split
          · exact Or.inr (Or.inl rfl)
          · exact Or.inl rfl
    | vstr s =>
        simp only [to_bool]
        split
        · exact Or.inr (Or.inr rfl)
        · split
          · exact Or.inr (Or.inl rfl)
          · exact Or.inl rfl

/-- C3 witness: the coercion characterisations at concrete inputs — an
unparseable string maps to `none`, a numeric string parses, `"No"`
normalises into the 0-set. -/
theorem c3_permissive_coercions_witness :
    safe_float (.vstr "abc") = none ∧ safe_int (.vstr " 42 ") = some 42 ∧
    to_bool (.vstr "No") = some 0 := by
  refine ⟨?_, ?_, ?_⟩
  · exact c3_permissive_coercions.2.2.2.2.2.1 (.vstr "abc") (by decide)
  · exact c3_permissive_coercions.2.2.2.2.1 " 42 " 42 (by decide) (by decide) (by decide)
  · exact c3_permissive_coercions.2.2.2.2.2.2.2.2.2.1 (.vstr "No") (by decide)
      (fun b => by cases b <;> decide) (by decide)

/-- C4: the point comparison returns `none` exactly when no row matches
`(commodity, country, year)`; on a match it returns that row's columns
with `delta`/`pct` both explicitly `none` when either operand is NULL,
and otherwise `delta = current - historical` and
`pct = delta / historical * 100`, except `pct = none` when the
historical value is exactly zero. -/
theorem c4_compare_vs_hist_spec :
    ∀ (db : DB) (commodity country_code : String) (year : ℤ),
      (compare_country_year_vs_hist db commodity country_code year = none ↔
        (joinByc db).filter (compareFilter commodity country_code year) = []) ∧
      (∀ res, compare_country_year_vs_hist db commodity country_code year = some res →
        (∃ j, ((joinByc db).filter (compareFilter commodity country_code year)).head? =
            some j ∧
          res.commodity = j.commodity ∧ res.country_code = j.country_code ∧
          res.country_name = j.country_name ∧
          res.hist_avg_wapr = j.r.hist_avg_wapr ∧
          res.this_year_avg_wapr = j.r.this_year_avg_wapr) ∧
        ((res.hist_avg_wapr = none ∨ res.this_year_avg_wapr = none) →
          res.delta = none ∧ res.pct = none) ∧
        (∀ hist curr, res.hist_avg_wapr = some hist →
          res.this_year_avg_wapr = some curr →
          res.delta = some (curr - hist) ∧
          (hist = 0 → res.pct = none) ∧
          (hist ≠ 0 → res.pct = some ((curr - hist) / hist * 100)))) := by
  intro db commodity country_code year
  constructor
  · constructor
    · intro hnone
      rw [← List.head?_eq_none_iff]
      rcases hh : ((joinByc db).filter (compareFilter commodity country_code year)).head?
        with _ | j
      · rfl
      · exfalso
        simp only [compare_country_year_vs_hist, hh] at hnone
        split at hnone <;> cases hnone
    · intro hempty
      simp [compare_country_year_vs_hist, hempty]
  · intro res hres
    rcases hh : ((joinByc db).filter (compareFilter commodity country_code year)).head?
      with _ | j
    · rw [compare_country_year_vs_hist, hh] at hres
      cases hres
    · simp only [compare_country_year_vs_hist, hh] at hres
      split at hres
      · rename_i hist curr hh1 hh2
        cases hres
        refine ⟨⟨j, rfl, rfl, rfl, rfl, hh1.symm, hh2.symm⟩, ?_, ?_⟩
        · rintro (h | h) <;> cases h
        · intro h0 c0 e1 e2
          cases e1
          cases e2
          exact ⟨rfl, fun hz => by simp [hz], fun hz => by simp [hz]⟩
      · rename_i hfail
        cases hres
        refine ⟨⟨j, rfl, rfl, rfl, rfl, rfl, rfl⟩, fun _ => ⟨rfl, rfl⟩, ?_⟩
        intro hist curr e1 e2
        exact (hfail hist curr e1 e2).elim

/-- One commodity, one country, one `climate_risk_by_country` row with
both operands present. -/
def dbRice : DB :=
  ⟨[⟨1, some "Rice", some "rice"⟩], [⟨1, some "IN", some "India"⟩],
   [⟨none, 1, 1, some 2025, some 30, some 38, none, none, none, none⟩], [], [], [], []⟩

/-- The comparison result for `dbRice`. -/
def c4res : CompareResult :=
  ⟨some "Rice", some "IN", some "India", some 30, some 38, some 8, some (80/3)⟩

/-- C4 witness: at `dbRice` the comparison returns the matched row with
`delta = 38 - 30` and `pct = (38 - 30) / 30 * 100`. -/
theorem c4_compare_vs_hist_spec_witness :
    compare_country_year_vs_hist dbRice "Rice" "IN" 2025 = some c4res ∧
    c4res.delta = some ((38 : ℚ) - 30) ∧
    c4res.pct = some (((38 : ℚ) - 30) / 30 * 100) := by
  have heq : compare_country_year_vs_hist dbRice "Rice" "IN" 2025 = some c4res := by
    norm_num [compare_country_year_vs_hist, joinByc, compareFilter, sqlEq, dbRice, c4res]
  have h2 := ((c4_compare_vs_hist_spec dbRice "Rice" "IN" 2025).2 c4res heq).2.2
    30 38 rfl rfl
  exact ⟨heq, h2.1, h2.2.2 (by norm_num)⟩

/-- The strict-sign classification, characterised as three iffs. -/
theorem direction_spec (d : ℚ) :
    (direction d = "increase" ↔ 0 < d) ∧ (direction d = "decrease" ↔ d < 0) ∧
    (direction d = "no_change" ↔ d = 0) := by
  by_cases h1 : 0 < d
  · have h2 : ¬d < 0 := by linarith
    have h3 : d ≠ 0 := by intro h; rw [h] at h1; exact lt_irrefl 0 h1
    simp [direction, h1, h2, h3]
  · by_cases h2 : d < 0
    · have h3 : d ≠ 0 := by intro h; rw [h] at h2; exact lt_irrefl 0 h2
      simp [direction, h1, h2, h3]
    · have h3 : d = 0 := le_antisymm (not_lt.mp h1) (not_lt.mp h2)
      simp [direction, h1, h2, h3]

/-- Rows-level characterisation of the season-change computation. -/
theorem seasonChangeOfRows_spec (country_code commodity : String) (rows : List BycJoined) :
    (seasonChangeOfRows country_code commodity rows = none ↔
      rows = [] ∨ ∃ latest rest, rows = latest :: rest ∧
        (latest.r.this_year_avg_wapr = none ∨ latest.r.hist_avg_wapr = none)) ∧
    (∀ res, seasonChangeOfRows country_code commodity rows = some res →
      res.commodity = commodity ∧ res.country_code = country_code ∧
      (res.direction = "increase" ↔ 0 < res.delta) ∧
      (res.direction = "decrease" ↔ res.delta < 0) ∧
      (res.direction = "no_change" ↔ res.delta = 0) ∧
      (∀ latest, rows = [latest] → ∀ curr hist,
        latest.r.this_year_avg_wapr = some curr → latest.r.hist_avg_wapr = some hist →
        res.current_wapr = curr ∧ res.previous_wapr = hist ∧ res.delta = curr - hist) ∧
      (∀ latest prev rest, rows = latest :: prev :: rest → ∀ curr prevw,
        latest.r.this_year_avg_wapr = some curr →
        prev.r.this_year_avg_wapr = some prevw →
        res.current_wapr = curr ∧ res.previous_wapr = prevw ∧ res.delta = curr - prevw) ∧
      (∀ latest prev rest, rows = latest :: prev :: rest → ∀ curr hist,
        latest.r.this_year_avg_wapr = some curr → latest.r.hist_avg_wapr = some hist →
        prev.r.this_year_avg_wapr = none →
        res.current_wapr = curr ∧ res.previous_wapr = hist ∧
        res.delta = curr - hist)) := by
  cases rows with
  | nil =>
      refine ⟨by simp [seasonChangeOfRows], ?_⟩
      intro res hres
      cases hres
  | cons latest rest =>
      rcases hcur : latest.r.this_year_avg_wapr with _ | cv
      · have hnone : seasonChangeOfRows country_code commodity (latest :: rest) = none := by
          simp [seasonChangeOfRows, hcur]
        refine ⟨?_, ?_⟩
        · rw [hnone]
          exact ⟨fun _ => Or.inr ⟨latest, rest, rfl, Or.inl hcur⟩, fun _ => rfl⟩
        · intro res hres
          rw [hnone] at hres
          cases hres
      · rcases hhist : latest.r.hist_avg_wapr with _ | hv
        · have hnone : seasonChangeOfRows country_code commodity (latest :: rest) = none := by
            simp [seasonChangeOfRows, hcur, hhist]
          refine ⟨?_, ?_⟩
          · rw [hnone]
            exact ⟨fun _ => Or.inr ⟨latest, rest, rfl, Or.inr hhist⟩, fun _ => rfl⟩
          · intro res hres
            rw [hnone] at hres
            cases hres
        · cases rest with
          | nil =>
              have hsome : seasonChangeOfRows country_code commodity [latest] =
                  some ⟨commodity, country_code, latest.r.year, cv, hv, cv - hv,
                        direction (cv - hv)⟩ := by
                simp [seasonChangeOfRows, hcur, hhist]
              refine ⟨?_, ?_⟩
              · rw [hsome]
                constructor
                · intro h
                  cases h
                · rintro (h | ⟨l, r, he, hor⟩)
                  · cases h
                  · injection he with he1 he2
                    subst he1
                    rcases hor with h | h
                    · rw [hcur] at h
                      cases h
                    · rw [hhist] at h
                      cases h
              · intro res hres
                rw [hsome] at hres
                cases hres
                refine ⟨rfl, rfl, (direction_spec (cv - hv)).1,
                  (direction_spec (cv - hv)).2.1, (direction_spec (cv - hv)).2.2,
                  ?_, ?_, ?_⟩
                · intro l he curr hist h1 h2
                  injection he with he1 he2
                  subst he1
                  rw [hcur] at h1
                  rw [hhist] at h2
                  injection h1 with h1
                  injection h2 with h2
                  exact ⟨h1, h2, by rw [h1, h2]⟩
                · intro l p r he
                  injection he with he1 he2
                  cases he2
                · intro l p r he
                  injection he with he1 he2
                  cases he2
          | cons prev rest2 =>
              rcases hprev : prev.r.this_year_avg_wapr with _ | pv
              · have hsome : seasonChangeOfRows country_code commodity
                    (latest :: prev :: rest2) =
                    some ⟨commodity, country_code, latest.r.year, cv, hv, cv - hv,
                          direction (cv - hv)⟩ := by
                  simp [seasonChangeOfRows, hcur, hhist, hprev]
                refine ⟨?_, ?_⟩
                · rw [hsome]
                  constructor
                  · intro h
                    cases h
                  · rintro (h | ⟨l, r, he, hor⟩)
                    · cases h
                    · injection he with he1 he2
                      subst he1
                      rcases hor with h | h
                      · rw [hcur] at h
                        cases h
                      · rw [hhist] at h
                        cases h
                · intro res hres
                  rw [hsome] at hres
                  cases hres
                  refine ⟨rfl, rfl, (direction_spec (cv - hv)).1,
                    (direction_spec (cv - hv)).2.1, (direction_spec (cv - hv)).2.2,
                    ?_, ?_, ?_⟩
                  · intro l he
                    injection he with he1 he2
                    cases he2
                  · intro l p r he curr prevw h1 h2
                    injection he with he1 he2
                    injection he2 with he2 he3
                    subst he1
                    subst he2
                    rw [hprev] at h2
                    cases h2
                  · intro l p r he curr hist h1 h2 h3
                    injection he with he1 he2
                    injection he2 with he2 he3
                    subst he1
                    rw [hcur] at h1
                    rw [hhist] at h2
                    injection h1 with h1
                    injection h2 with h2
                    exact ⟨h1, h2, by rw [h1, h2]⟩
              · have hsome : seasonChangeOfRows country_code commodity
                    (latest :: prev :: rest2) =
                    some ⟨commodity, country_code, latest.r.year, cv, pv, cv - pv,
                          direction (cv - pv)⟩ := by
                  simp [seasonChangeOfRows, hcur, hhist, hprev]
                refine ⟨?_, ?_⟩
                · rw [hsome]
                  constructor
                  · intro h
                    cases h
                  · rintro (h | ⟨l, r, he, hor⟩)
                    · cases h
                    · injection he with he1 he2
                      subst he1
                      rcases hor with h | h
                      · rw [hcur] at h
                        cases h
                      · rw [hhist] at h
                        cases h
                · intro res hres
                  rw [hsome] at hres
                  cases hres
                  refine ⟨rfl, rfl, (direction_spec (cv - pv)).1,
                    (direction_spec (cv - pv)).2.1, (direction_spec (cv - pv)).2.2,
                    ?_, ?_, ?_⟩
                  · intro l he
                    injection he with he1 he2
                    cases he2
                  · intro l p r he curr prevw h1 h2
                    injection he with he1 he2
                    injection he2 with he2 he3
                    subst he1
                    subst he2
                    rw [hcur] at h1
                    rw [hprev] at h2
                    injection h1 with h1
                    injection h2 with h2
                    exact ⟨h1, h2, by rw [h1, h2]⟩
                  · intro l p r he curr hist h1 h2 h3
                    injection he with he1 he2
                    injection he2 with he2 he3
                    subst he2
                    rw [hprev] at h3
                    cases h3

/-- A single `(Rice, IN)` snapshot whose current value is NULL. -/
def dbC5 : DB :=
  ⟨[⟨1, some "Rice", some "rice"⟩], [⟨1, some "IN", some "India"⟩],
   [⟨none, 1, 1, some 2025, some 5, none, none, none, none, none⟩], [], [], [], []⟩

/-- C5 counterexample: the claim says the no-data condition is returned
exactly when fewer than one snapshot exists, but here one snapshot
exists for (Rice, IN) and the query still returns the no-data signal,
because the snapshot's current value is NULL. -/
theorem c5_counterexample_nodata_despite_snapshot :
    (seasonRows dbC5 "IN" "Rice").length = 1 ∧
    get_country_season_change dbC5 "IN" "Rice" = none := by
  constructor
  · decide
  · decide

/-- C5 (amended): over the two most recent snapshots (`seasonRows`,
`ORDER BY year DESC LIMIT 2`): delta is between the two snapshots'
current values when both are present; with a single snapshot — or a NULL
second value — it falls back to current minus the historical average;
`direction` is `"increase"` iff `delta > 0`, `"decrease"` iff
`delta < 0`, `"no_change"` iff `delta = 0`; and the no-data signal is
returned exactly when no snapshot exists or the latest snapshot's
current value or historical average is NULL. -/
theorem c5_season_change_spec :
    ∀ (db : DB) (country_code commodity : String),
      (get_country_season_change db country_code commodity = none ↔
        seasonRows db country_code commodity = [] ∨
        ∃ latest rest, seasonRows db country_code commodity = latest :: rest ∧
          (latest.r.this_year_avg_wapr = none ∨ latest.r.hist_avg_wapr = none)) ∧
      (∀ res, get_country_season_change db country_code commodity = some res →
        res.commodity = commodity ∧ res.country_code = country_code ∧
        (res.direction = "increase" ↔ 0 < res.delta) ∧
        (res.direction = "decrease" ↔ res.delta < 0) ∧
        (res.direction = "no_change" ↔ res.delta = 0) ∧
        (∀ latest, seasonRows db country_code commodity = [latest] → ∀ curr hist,
          latest.r.this_year_avg_wapr = some curr → latest.r.hist_avg_wapr = some hist →
          res.current_wapr = curr ∧ res.previous_wapr = hist ∧ res.delta = curr - hist) ∧
        (∀ latest prev rest,
          seasonRows db country_code commodity = latest :: prev :: rest → ∀ curr prevw,
          latest.r.this_year_avg_wapr = some curr →
          prev.r.this_year_avg_wapr = some prevw →
          res.current_wapr = curr ∧ res.previous_wapr = prevw ∧
          res.delta = curr - prevw) ∧
        (∀ latest prev rest,
          seasonRows db country_code commodity = latest :: prev :: rest → ∀ curr hist,
          latest.r.this_year_avg_wapr = some curr → latest.r.hist_avg_wapr = some hist →
          prev.r.this_year_avg_wapr = none →
          res.current_wapr = curr ∧ res.previous_wapr = hist ∧
          res.delta = curr - hist)) :=
  fun db country_code commodity =>
    seasonChangeOfRows_spec country_code commodity (seasonRows db country_code commodity)

/-- Two `(Rice, IN)` snapshots: 2024 (current 30) and 2025 (current 38),
stored out of year order. -/
def dbC5w : DB :=
  ⟨[⟨1, some "Rice", some "rice"⟩], [⟨1, some "IN", some "India"⟩],
   [⟨none, 1, 1, some 2024, some 30, some 30, none, none, none, none⟩,
    ⟨none, 1, 1, some 2025, some 30, some 38, none, none, none, none⟩], [], [], [], []⟩

/-- Season-change answer at `dbC5w`. -/
def res5 : SeasonChange := ⟨"Rice", "IN", some 2025, 38, 30, 8, "increase"⟩

/-- C5 witness: with two snapshots, delta is `38 - 30` between the two
most recent current values and the direction is `"increase"`. -/
theorem c5_season_change_spec_witness :
    get_country_season_change dbC5w "IN" "Rice" = some res5 ∧
    (res5.direction = "increase" ↔ 0 < res5.delta) ∧
    res5.current_wapr = 38 ∧ res5.previous_wapr = 30 ∧
    res5.delta = (38 : ℚ) - 30 := by
  have hrows : seasonRows dbC5w "IN" "Rice" =
      [⟨some "Rice", some "IN", some "India",
        ⟨none, 1, 1, some 2025, some 30, some 38, none, none, none, none⟩⟩,
       ⟨some "Rice", some "IN", some "India",
        ⟨none, 1, 1, some 2024, some 30, some 30, none, none, none, none⟩⟩] := by
    decide
  have heq : get_country_season_change dbC5w "IN" "Rice" = some res5 := by
    rw [get_country_season_change, hrows]
    norm_num [seasonChangeOfRows, res5, direction]
  have h := (c5_season_change_spec dbC5w "IN" "Rice").2 res5 heq
  have h2 := h.2.2.2.2.2.2.1 _ _ _ hrows 38 30 rfl rfl
  exact ⟨heq, h.2.2.1, h2.1, h2.2.1, h2.2.2⟩

/-- `nullRank` hits 1 exactly on NULL. -/
theorem nullRank_eq_one_iff (o : Option ℚ) : nullRank o = 1 ↔ o = none := by
  cases o <;> simp [nullRank]

/-- `nullRank` is at most 1. -/
theorem nullRank_le_one (o : Option ℚ) : nullRank o ≤ 1 := by
  cases o <;> simp [nullRank]

/-- Rice across two countries; the BR row has a NULL current metric. -/
def dbC6 : DB :=
  ⟨[⟨1, some "Rice", some "rice"⟩],
   [⟨1, some "IN", some "India"⟩, ⟨2, some "BR", some "Brazil"⟩],
   [⟨none, 1, 1, some 2025, some 10, some 30, none, none, none, none⟩,
    ⟨none, 1, 2, some 2025, some 20, none, none, none, none, none⟩], [], [], [], []⟩

/-- C6 counterexample: the claim says that in both rankings rows with an
empty metric sort last; but the highest-current-risk query filters NULL
metrics out entirely — at `dbC6` with `k = 2` (all Rice rows would fit)
the NULL-metric BR row is absent from the result, not last in it. -/
theorem c6_counterexample_highest_drops_null_rows :
    (⟨some "Brazil", some "BR", some "Rice", none, some 20, some 2025⟩ : TopHighRow) ∉
      get_top_k_highest_current_risk dbC6 "Rice" 2 ∧
    get_top_k_highest_current_risk dbC6 "Rice" 2 =
      [⟨some "India", some "IN", some "Rice", some 30, some 10, some 2025⟩] := by
  constructor
  · decide
  · decide

/-- C6 (amended): both top-k queries return at most `k` rows; the
lowest-historical-risk ranking is ordered non-decreasing in the metric
with NULL-metric rows always last; the highest-current-risk ranking
contains no NULL-metric row at all (they are filtered out, not sorted
last) and is ordered non-increasing in the metric. -/
theorem c6_topk_bounds_and_ordering :
    ∀ (db : DB) (commodity : String) (k : ℕ),
      (get_top_k_lowest_hist_risk db commodity k).length ≤ k ∧
      (get_top_k_highest_current_risk db commodity k).length ≤ k ∧
      List.Sorted (fun a b : TopLowRow =>
          (a.hist_avg_wapr = none → b.hist_avg_wapr = none) ∧
          ∀ x y, a.hist_avg_wapr = some x → b.hist_avg_wapr = some y → x ≤ y)
        (get_top_k_lowest_hist_risk db commodity k) ∧
      (∀ r ∈ get_top_k_highest_current_risk db commodity k,
        r.this_year_avg_wapr ≠ none) ∧
      List.Sorted (fun a b : TopHighRow =>
          ∀ x y, a.this_year_avg_wapr = some x → b.this_year_avg_wapr = some y → y ≤ x)
        (get_top_k_highest_current_risk db commodity k) := by
  intro db commodity k
  refine ⟨List.length_take_le _ _, List.length_take_le _ _, ?_, ?_, ?_⟩
  · apply List.Pairwise.sublist (List.take_sublist _ _)
    apply List.Pairwise.imp ?_
      (List.sorted_insertionSort
        (lex2 (fun r : TopLowRow => nullRank r.hist_avg_wapr)
          (fun r => r.hist_avg_wapr.getD 0)) _)
    intro a b h
    simp only [lex2] at h
    constructor
    · intro ha
      rcases h with h | ⟨heq, -⟩
      · exfalso
        rw [(nullRank_eq_one_iff _).mpr ha] at h
        exact absurd (lt_of_lt_of_le h (nullRank_le_one _)) (lt_irrefl 1)
      · rw [(nullRank_eq_one_iff _).mpr ha] at heq
        exact (nullRank_eq_one_iff _).mp heq.symm
    · intro x y hx hy
      rcases h with h | ⟨-, hle⟩
      · rw [hx, hy] at h
        simp [nullRank] at h
      · rw [hx, hy] at hle
        simpa [Option.getD] using hle
  · intro r hr
    have hr2 : r ∈ ((joinByc db).filter (fun j =>
        j.r.this_year_avg_wapr.isSome && sqlEq j.commodity (some commodity))).map
        (fun j => TopHighRow.mk j.country_name j.country_code j.commodity
          j.r.this_year_avg_wapr j.r.hist_avg_wapr j.r.year) := by
      have := (List.take_sublist k _).mem hr
      rwa [List.mem_insertionSort] at this
    rcases List.mem_map.mp hr2 with ⟨j, hj, hjr⟩
    rcases (List.mem_filter.mp hj) with ⟨-, hp⟩
    have hs : j.r.this_year_avg_wapr.isSome := by
      simp only [Bool.and_eq_true] at hp
      exact hp.1
    rw [← hjr]
    simp only [TopHighRow.mk]
    intro hc
    rw [hc] at hs
    cases hs
  · apply List.Pairwise.sublist (List.take_sublist _ _)
    apply List.Pairwise.imp ?_
      (List.sorted_insertionSort
        (lex2 (fun r : TopHighRow => OrderDual.toDual (r.this_year_avg_wapr.getD 0))
          (fun r => OrderDual.toDual (toWB r.year))) _)
    intro a b h
    simp only [lex2] at h
    intro x y hx hy
    rcases h with h | ⟨heq, -⟩
    · have := OrderDual.toDual_lt_toDual.mp h
      rw [hx, hy] at this
      simpa [Option.getD] using le_of_lt this
    · have := OrderDual.toDual.injective heq
      rw [hx, hy] at this
      simp only [Option.getD_some] at this
      exact le_of_eq this.symm

/-- SQL `col = literal` on a nullable column. -/
theorem sqlEq_some {α : Type} [DecidableEq α] (o : Option α) (x : α) :
    sqlEq o (some x) = true ↔ o = some x := by
  cases o <;> simp [sqlEq]

/-- The spike WHERE clause, characterised. -/
theorem spikeFilter_eq_true (commodity : String) (threshold : ℚ) (j : BoxJoined) :
    spikeFilter commodity threshold j = true ↔
      j.commodity = some commodity ∧ j.r.upcoming_season = some 1 ∧
      ∃ d, j.r.avg_risk_score_diff = some d ∧ threshold < d := by
  simp only [spikeFilter, Bool.and_eq_true, sqlEq_some]
  constructor
  · rintro ⟨⟨h1, h2⟩, h3⟩
    refine ⟨h1, h2, ?_⟩
    rcases hd : j.r.avg_risk_score_diff with _ | d
    · rw [hd] at h3
      cases h3
    · rw [hd] at h3
      exact ⟨d, rfl, of_decide_eq_true h3⟩
  · rintro ⟨h1, h2, d, hd, hlt⟩
    refine ⟨⟨h1, h2⟩, ?_⟩
    rw [hd]
    exact decide_eq_true hlt

/-- C7: the upcoming-spike query returns exactly (a permutation
preserving multiplicity, with no limit applied) the joined rows flagged
`upcoming_season = 1` whose risk difference is non-NULL and strictly
above the threshold — a row at exactly the threshold is excluded — in
non-increasing order of that difference. -/
theorem c7_upcoming_spike_regions_spec :
    ∀ (db : DB) (commodity : String) (threshold : ℚ),
      List.Perm (get_upcoming_spike_regions db commodity threshold)
        (((joinBox db).filter (spikeFilter commodity threshold)).map
          (fun j => SpikeRow.mk j.country_name j.country_code j.r.avg_risk_score_diff
            j.r.upcoming_year_risk_score)) ∧
      (∀ s, s ∈ get_upcoming_spike_regions db commodity threshold ↔
        ∃ j, j ∈ joinBox db ∧ j.commodity = some commodity ∧
          j.r.upcoming_season = some 1 ∧
          (∃ d, j.r.avg_risk_score_diff = some d ∧ threshold < d) ∧
          s = SpikeRow.mk j.country_name j.country_code j.r.avg_risk_score_diff
            j.r.upcoming_year_risk_score) ∧
      List.Sorted (fun a b : SpikeRow => ∀ x y, a.avg_risk_score_diff = some x →
          b.avg_risk_score_diff = some y → y ≤ x)
        (get_upcoming_spike_regions db commodity threshold) := by
  intro db commodity threshold
  refine ⟨List.perm_insertionSort _ _, ?_, ?_⟩
  · intro s
    simp only [get_upcoming_spike_regions, List.mem_insertionSort, List.mem_map,
      List.mem_filter, spikeFilter_eq_true]
    constructor
    · rintro ⟨j, ⟨hj, h1, h2, h3⟩, hs⟩
      exact ⟨j, hj, h1, h2, h3, hs.symm⟩
    · rintro ⟨j, hj, h1, h2, h3, hs⟩
      exact ⟨j, ⟨hj, h1, h2, h3⟩, hs.symm⟩
  · apply List.Pairwise.imp ?_
      (List.sorted_insertionSort
        (keyLe (fun r : SpikeRow => OrderDual.toDual (r.avg_risk_score_diff.getD 0))) _)
    intro a b h
    simp only [keyLe, OrderDual.toDual_le_toDual] at h
    intro x y hx hy
    rw [hx, hy] at h
    simpa [Option.getD] using h

/-- The trend classification of the EU comparisons, as three iffs. -/
theorem trendStr_spec (d : ℚ) :
    (trendStr d = "increased" ↔ 0 < d) ∧ (trendStr d = "decreased" ↔ d < 0) ∧
    (trendStr d = "unchanged" ↔ d = 0) := by
  by_cases h1 : 0 < d
  · have h2 : ¬d < 0 := by linarith
    have h3 : d ≠ 0 := by intro h; rw [h] at h1; exact lt_irrefl 0 h1
    simp [trendStr, h1, h2, h3]
  · by_cases h2 : d < 0
    · have h3 : d ≠ 0 := by intro h; rw [h] at h2; exact lt_irrefl 0 h2
      simp [trendStr, h1, h2, h3]
    · have h3 : d = 0 := le_antisymm (not_lt.mp h1) (not_lt.mp h2)
      simp [trendStr, h1, h2, h3]

/-- The non-NULL current-year values of a row list. -/
def nonNullCurr (rows : List BycJoined) : List ℚ :=
  rows.filterMap (fun j => j.r.this_year_avg_wapr)

/-- Over a table obeying the uniqueness invariant (at most one row per
`(commodity, EU, year)`), `fetch_one` + NULL checks coincide with the
arithmetic mean of the non-NULL values of the matching rows. -/
theorem head_vs_avg (rows : List BycJoined) (hlen : rows.length ≤ 1) :
    (rows.head? = none → sqlAvg (nonNullCurr rows) = none) ∧
    (∀ r, rows.head? = some r →
      (r.r.this_year_avg_wapr = none → sqlAvg (nonNullCurr rows) = none) ∧
      (∀ v, r.r.this_year_avg_wapr = some v → sqlAvg (nonNullCurr rows) = some v)) := by
  cases rows with
  | nil => exact ⟨fun _ => rfl, fun r hr => by cases hr⟩
  | cons r rest =>
      cases rest with
      | nil =>
          refine ⟨fun h => Option.noConfusion h, fun r' hr' => ?_⟩
          injection hr' with hr'
          subst hr'
          constructor
          · intro hc
            simp [nonNullCurr, sqlAvg, hc]
          · intro v hv
            simp [nonNullCurr, sqlAvg, hv]
      | cons r2 t =>
          exfalso
          simp only [List.length_cons] at hlen
          omega

/-- C8: both regional EU comparisons compute, for each of the two years,
the arithmetic mean of the non-NULL current-year metric over the rows of
countries tagged `'EU'` (for the per-commodity variant this is the single
matching row's value, given the natural-key uniqueness invariant), then
apply the point-comparison classification: `delta` = difference of the
two means, percent NULL exactly on a zero previous-year mean, and the
strict-sign trend; a missing mean for either year yields the no-data
signal. -/
theorem c8_eu_comparison_spec :
    (∀ (db : DB) (commodity : String) (current_year previous_year : ℤ),
      (euRowsFor db commodity current_year).length ≤ 1 →
      (euRowsFor db commodity previous_year).length ≤ 1 →
      (get_eu_risk_comparison db commodity current_year previous_year = none ↔
        sqlAvg (nonNullCurr (euRowsFor db commodity current_year)) = none ∨
        sqlAvg (nonNullCurr (euRowsFor db commodity previous_year)) = none) ∧
      (∀ res, get_eu_risk_comparison db commodity current_year previous_year = some res →
        some res.current_wapr =
          sqlAvg (nonNullCurr (euRowsFor db commodity current_year)) ∧
        some res.previous_wapr =
          sqlAvg (nonNullCurr (euRowsFor db commodity previous_year)) ∧
        res.delta = res.current_wapr - res.previous_wapr ∧
        (res.previous_wapr = 0 → res.percent_change = none) ∧
        (res.previous_wapr ≠ 0 →
          res.percent_change = some (res.delta / res.previous_wapr * 100)) ∧
        (res.trend = "increased" ↔ 0 < res.delta) ∧
        (res.trend = "decreased" ↔ res.delta < 0) ∧
        (res.trend = "unchanged" ↔ res.delta = 0))) ∧
    (∀ (db : DB) (current_year previous_year : ℤ),
      (get_eu_overall_risk_comparison db current_year previous_year = none ↔
        sqlAvg (euOverallVals db current_year) = none ∨
        sqlAvg (euOverallVals db previous_year) = none) ∧
      (∀ res, get_eu_overall_risk_comparison db current_year previous_year = some res →
        some res.current_wapr = sqlAvg (euOverallVals db current_year) ∧
        some res.previous_wapr = sqlAvg (euOverallVals db previous_year) ∧
        res.delta = res.current_wapr - res.previous_wapr ∧
        (res.previous_wapr = 0 → res.percent_change = none) ∧
        (res.previous_wapr ≠ 0 →
          res.percent_change = some (res.delta / res.previous_wapr * 100)) ∧
        (res.trend = "increased" ↔ 0 < res.delta) ∧
        (res.trend = "decreased" ↔ res.delta < 0) ∧
        (res.trend = "unchanged" ↔ res.delta = 0))) := by
  constructor
  · intro db commodity current_year previous_year hlen1 hlen2
    rcases h1 : (euRowsFor db commodity current_year).head? with _ | cr
    · have ha1 : sqlAvg (nonNullCurr (euRowsFor db commodity current_year)) = none :=
        (head_vs_avg _ hlen1).1 h1
      constructor
      · simp only [get_eu_risk_comparison, h1]
        simp [ha1]
      · intro res hres
        simp only [get_eu_risk_comparison, h1] at hres
        cases hres
    · rcases h2 : (euRowsFor db commodity previous_year).head? with _ | pr
      · have ha2 : sqlAvg (nonNullCurr (euRowsFor db commodity previous_year)) = none :=
          (head_vs_avg _ hlen2).1 h2
        constructor
        · simp only [get_eu_risk_comparison, h1, h2]
          simp [ha2]
        · intro res hres
          simp only [get_eu_risk_comparison, h1, h2] at hres
          cases hres
      · rcases hc : cr.r.this_year_avg_wapr with _ | cv
        · have ha1 : sqlAvg (nonNullCurr (euRowsFor db commodity current_year)) = none :=
            ((head_vs_avg _ hlen1).2 cr h1).1 hc
          constructor
          · simp only [get_eu_risk_comparison, h1, h2, hc]
            simp [ha1]
          · intro res hres
            simp only [get_eu_risk_comparison, h1, h2, hc] at hres
            cases hres
        · rcases hp : pr.r.this_year_avg_wapr with _ | pv
          · have ha2 : sqlAvg (nonNullCurr (euRowsFor db commodity previous_year)) = none :=
              ((head_vs_avg _ hlen2).2 pr h2).1 hp
            constructor
            · simp only [get_eu_risk_comparison, h1, h2, hc, hp]
              simp [ha2]
            · intro res hres
              simp only [get_eu_risk_comparison, h1, h2, hc, hp] at hres
              cases hres
          · have ha1 : sqlAvg (nonNullCurr (euRowsFor db commodity current_year)) =
                some cv := ((head_vs_avg _ hlen1).2 cr h1).2 cv hc
            have ha2 : sqlAvg (nonNullCurr (euRowsFor db commodity previous_year)) =
                some pv := ((head_vs_avg _ hlen2).2 pr h2).2 pv hp
            constructor
            · simp only [get_eu_risk_comparison, h1, h2, hc, hp]
              simp [ha1, ha2]
            · intro res hres
              simp only [get_eu_risk_comparison, h1, h2, hc, hp] at hres
              cases hres
              refine ⟨by rw [ha1], by rw [ha2], rfl, ?_, ?_,
                (trendStr_spec (cv - pv)).1, (trendStr_spec (cv - pv)).2.1,
                (trendStr_spec (cv - pv)).2.2⟩
              · intro hz
                simp only at hz
                simp [hz]
              · intro hz
                simp only at hz
                simp [hz]
  · intro db current_year previous_year
    rcases h1 : sqlAvg (euOverallVals db current_year) with _ | cv
    · constructor
      · simp only [get_eu_overall_risk_comparison, h1]
        simp
      · intro res hres
        simp only [get_eu_overall_risk_comparison, h1] at hres
        cases hres
    · rcases h2 : sqlAvg (euOverallVals db previous_year) with _ | pv
      · constructor
        · simp only [get_eu_overall_risk_comparison, h1, h2]
          simp
        · intro res hres
          simp only [get_eu_overall_risk_comparison, h1, h2] at hres
          cases hres
      · constructor
        · simp only [get_eu_overall_risk_comparison, h1, h2]
          simp
        · intro res hres
          simp only [get_eu_overall_risk_comparison, h1, h2] at hres
          cases hres
          refine ⟨rfl, rfl, rfl, ?_, ?_,
            (trendStr_spec (cv - pv)).1, (trendStr_spec (cv - pv)).2.1,
            (trendStr_spec (cv - pv)).2.2⟩
          · intro hz
            simp only at hz
            simp [hz]
          · intro hz
            simp only at hz
            simp [hz]

/-- Wheat for the `'EU'` country in 2025 and 2026. -/
def dbC8 : DB :=
  ⟨[⟨1, some "Wheat", some "wheat"⟩], [⟨1, some "EU", some "European Union"⟩],
   [⟨none, 1, 1, some 2026, some 30, some 40, none, none, none, none⟩,
    ⟨none, 1, 1, some 2025, some 30, some 32, none, none, none, none⟩], [], [], [], []⟩

/-- EU comparison answer at `dbC8`. -/
def c8res : EuCmp :=
  ⟨some "Wheat", "European Union", 2026, 2025, 40, 32, 8, some 25, "increased"⟩

/-- C8 witness: comparing EU Wheat 2026 vs 2025 yields the means 40 and
32, `delta = 8`, `percent = 25` and the trend `"increased"`. -/
theorem c8_eu_comparison_spec_witness :
    (euRowsFor dbC8 "Wheat" 2026).length ≤ 1 ∧
    (euRowsFor dbC8 "Wheat" 2025).length ≤ 1 ∧
    get_eu_risk_comparison dbC8 "Wheat" 2026 2025 = some c8res ∧
    some c8res.current_wapr = sqlAvg (nonNullCurr (euRowsFor dbC8 "Wheat" 2026)) ∧
    some c8res.previous_wapr = sqlAvg (nonNullCurr (euRowsFor dbC8 "Wheat" 2025)) ∧
    c8res.delta = c8res.current_wapr - c8res.previous_wapr ∧
    (c8res.trend = "increased" ↔ 0 < c8res.delta) := by
  have hr1 : euRowsFor dbC8 "Wheat" 2026 =
      [⟨some "Wheat", some "EU", some "European Union",
        ⟨none, 1, 1, some 2026, some 30, some 40, none, none, none, none⟩⟩] := by decide
  have hr2 : euRowsFor dbC8 "Wheat" 2025 =
      [⟨some "Wheat", some "EU", some "European Union",
        ⟨none, 1, 1, some 2025, some 30, some 32, none, none, none, none⟩⟩] := by decide
  have heq : get_eu_risk_comparison dbC8 "Wheat" 2026 2025 = some c8res := by
    simp only [get_eu_risk_comparison, hr1, hr2]
    norm_num [c8res, trendStr]
  have h := (c8_eu_comparison_spec.1 dbC8 "Wheat" 2026 2025
    (by decide) (by decide)).2 c8res heq
  exact ⟨by decide, by decide, heq, h.1, h.2.1, h.2.2.1, h.2.2.2.2.2.1⟩

/-- `head?` hits only members. -/
theorem mem_of_head?_eq {α : Type} {l : List α} {a : α} (h : l.head? = some a) : a ∈ l := by
  cases l with
  | nil => cases h
  | cons x t =>
      injection h with h
      rw [← h]
      exact List.mem_cons_self x t

/-- C10: calling the most-similar-year query or the yield/risk-relation
query with `scope = "country"` but an absent or empty country code takes
the global branch — the result is exactly the fixed-`'GLB'`-country
query's result (whose returned row, when any, carries code `'GLB'`) —
with no error and no all-countries scan. -/
theorem c10_country_scope_without_code_is_global :
    ∀ (db : DB) (commodity : String) (country_code : Option String),
      (country_code = none ∨ country_code = some "") →
      get_most_similar_year db commodity "country" country_code =
        msyQuery db commodity (some "GLB") ∧
      get_yield_and_risk_relation db commodity "country" country_code =
        yieldQuery db commodity (some "GLB") ∧
      (∀ j, msyQuery db commodity (some "GLB") = some j →
        j.country_code = some "GLB") ∧
      (∀ j, yieldQuery db commodity (some "GLB") = some j →
        j.country_code = some "GLB") := by
  intro db commodity country_code hcc
  have hfalsy : pyTruthy country_code = false := by
    rcases hcc with h | h
    · rw [h]
      rfl
    · rw [h]
      simp [pyTruthy]
  refine ⟨?_, ?_, ?_, ?_⟩
  · rw [get_most_similar_year, if_neg]
    intro h
    rw [hfalsy] at h
    cases h.2
  · rw [get_yield_and_risk_relation, if_neg]
    intro h
    rw [hfalsy] at h
    cases h.2
  · intro j hj
    have hmem := mem_of_head?_eq hj
    rw [List.mem_insertionSort] at hmem
    rcases List.mem_filter.mp hmem with ⟨-, hp⟩
    simp only [Bool.and_eq_true, sqlEq_some] at hp
    exact hp.2
  · intro j hj
    have hmem := mem_of_head?_eq hj
    rw [List.mem_insertionSort] at hmem
    rcases List.mem_filter.mp hmem with ⟨-, hp⟩
    simp only [Bool.and_eq_true, sqlEq_some] at hp
    exact hp.2

/-- C10 witness: with `scope = "country"` and no code, both queries at
the empty store take the `'GLB'` branch. -/
theorem c10_country_scope_without_code_is_global_witness :
    get_most_similar_year emptyDb "Rice" "country" none =
      msyQuery emptyDb "Rice" (some "GLB") ∧
    get_yield_and_risk_relation emptyDb "Rice" "country" none =
      yieldQuery emptyDb "Rice" (some "GLB") := by
  have h := c10_country_scope_without_code_is_global emptyDb "Rice" none (Or.inl rfl)
  exact ⟨h.1, h.2.1⟩

/-- C6 witness: the bound and the non-NULL guarantee at `dbC6`, the
latter discharged at the one row the highest-risk ranking returns. -/
theorem c6_topk_bounds_and_ordering_witness :
    (get_top_k_lowest_hist_risk dbC6 "Rice" 2).length ≤ 2 ∧
    (⟨some "India", some "IN", some "Rice", some 30, some 10, some 2025⟩ :
      TopHighRow).this_year_avg_wapr ≠ none := by
  have h := c6_topk_bounds_and_ordering dbC6 "Rice" 2
  exact ⟨h.1, h.2.2.2.1 _ (by decide)⟩

/-- Rice spike rows: IN at diff 6 (above threshold 5), BR at diff 5
(exactly the threshold). -/
def dbC7 : DB :=
  ⟨[⟨1, some "Rice", some "rice"⟩],
   [⟨1, some "IN", some "India"⟩, ⟨2, some "BR", some "Brazil"⟩], [],
   [⟨none, 1, 1, some 7, some 7, some 6, some 60, some "High", none, none, some 1⟩,
    ⟨none, 1, 2, some 7, some 7, some 5, some 50, some "High", none, none, some 1⟩],
   [], [], []⟩

/-- C7 witness: at threshold 5 the IN region (diff 6) qualifies via the
membership characterisation. -/
theorem c7_upcoming_spike_regions_spec_witness :
    (⟨some "India", some "IN", some 6, some 60⟩ : SpikeRow) ∈
      get_upcoming_spike_regions dbC7 "Rice" 5 := by
  refine ((c7_upcoming_spike_regions_spec dbC7 "Rice" 5).2.1 _).mpr
    ⟨⟨some "Rice", some "IN", some "India",
      ⟨none, 1, 1, some 7, some 7, some 6, some 60, some "High", none, none, some 1⟩⟩,
     by decide, rfl, rfl, ⟨6, rfl, by decide⟩, rfl⟩

end Helios
